import Mathlib

/-!
# rust-modern-webview: the C boundary over the native window and web view control

A shallow embedding of `src/sys/webview.cpp` and `src/sys/window.cpp`.

The program is glue over native facilities (Win32 windows, the message loop,
the WinRT web view control).  The embedding keeps the code's own control flow
and takes what the native facilities answer as explicit inputs:

* `World` is the state of the process that the code can observe or change
  through native calls;
* `Native` holds, for one call of `webview_new`, the answer of every native
  call the code makes (a returned handle, a status, or that the call raises);
* a computation is a function `World → Step α × World`, where `Step` says
  whether the C++ code went on normally, raised an exception, or never
  returned from a blocking native call.

C++ exceptions are modelled where the source raises them itself
(`winrt::throw_last_error`, `winrt::check_hresult`) and for the WinRT calls
made inside the dynamic extent of one of its `try` blocks.  A call through a
null WinRT reference does not complete; it is modelled as an exception.  The
two host callbacks are recorded when they are called; what the host does
inside them is outside the model.
-/

namespace WebView

/-! ## Values -/

/-- A native window handle. -/
abbrev HWND := Nat

/-- Win32 `RECT` (fields are `LONG`). -/
structure RECT where
  left : Int
  top : Int
  right : Int
  bottom : Int
  deriving DecidableEq, Repr

/-- A `float` whose value is an integer, given by that value; every `float`
converted from a `LONG` is one. -/
structure CFloat where
  value : Int
  deriving DecidableEq, Repr

/-- The number of low bits of a magnitude of at most 2^31 that do not fit the
24-bit significand of a `float`. -/
def droppedBits (a : Nat) : Nat :=
  if a < 2 ^ 24 then 0
  else if a < 2 ^ 25 then 1
  else if a < 2 ^ 26 then 2
  else if a < 2 ^ 27 then 3
  else if a < 2 ^ 28 then 4
  else if a < 2 ^ 29 then 5
  else if a < 2 ^ 30 then 6
  else if a < 2 ^ 31 then 7
  else 8

/-- Rounding of a magnitude of at most 2^31 to 24 significant bits, to the
nearest such value and to the even one of two equally near. -/
def roundMagnitude (a : Nat) : Nat :=
  if 2 * (a % 2 ^ droppedBits a) > 2 ^ droppedBits a ∨
      (2 * (a % 2 ^ droppedBits a) = 2 ^ droppedBits a ∧ (a / 2 ^ droppedBits a) % 2 = 1) then
    (a / 2 ^ droppedBits a + 1) * 2 ^ droppedBits a
  else a / 2 ^ droppedBits a * 2 ^ droppedBits a

/-- The conversion `static_cast<float>` of a `LONG`: the nearest `float` (the
even one of two equally near, as the conversion rounds by default), which is
the value itself up to 2^24 in magnitude and a rounded value above. -/
def CFloat.ofLONG (n : Int) : CFloat :=
  ⟨if n < 0 then -(roundMagnitude n.natAbs : Int) else (roundMagnitude n.natAbs : Int)⟩

/-- The WinRT `Windows::Foundation::Rect`. -/
structure Rect where
  X : CFloat
  Y : CFloat
  Width : CFloat
  Height : CFloat
  deriving DecidableEq, Repr

/-- Win32 `SIZE`. -/
structure SIZE where
  cx : Int
  cy : Int
  deriving DecidableEq, Repr

/-- Subtraction of two `LONG` values as the machine performs it: the result is
reduced into the signed 32-bit range. -/
def subLONG (a b : Int) : Int :=
  (a - b + 2 ^ 31) % 2 ^ 32 - 2 ^ 31

/-- The conversion `(int)` of a `WPARAM` (an unsigned 64-bit value): the low
32 bits read as a signed integer. -/
def intOfWPARAM (wParam : Nat) : Int :=
  if wParam % 2 ^ 32 < 2 ^ 31 then (wParam % 2 ^ 32 : Nat) else (wParam % 2 ^ 32 : Nat) - 2 ^ 32

/-- The conversion of an `int` to `WPARAM`: sign extension to 64 bits. -/
def WPARAMOfInt (n : Int) : Nat :=
  (n % 2 ^ 64).toNat

/-- The type `ContentType` is passed by the foreign caller as an integer. -/
abbrev ContentType := Int

/-- Modelled from the spec: the enumerator `ContentType::Url`, declared in
`webview.hpp`, which is not among the sources; the interface table gives
`0=Url`. -/
def ContentType.Url : ContentType := 0

/-- Modelled from the spec: the enumerator `ContentType::Html`, declared in
`webview.hpp`, which is not among the sources; the interface table gives
`1=Html`. -/
def ContentType.Html : ContentType := 1

/-! Windows SDK constants used by the source. -/

def WM_DESTROY : Nat := 0x0002
def WM_SIZE : Nat := 0x0005
def WM_NCCREATE : Nat := 0x0081
def WM_NCDESTROY : Nat := 0x0082
def WS_OVERLAPPEDWINDOW : Nat := 0x00CF0000
def WS_THICKFRAME : Nat := 0x00040000
def WS_VISIBLE : Nat := 0x10000000

/-- The constant `DOMCONTENTLOADED` of `window.cpp`. -/
def DOMCONTENTLOADED : Nat := 1

/-! ## The state of the process -/

/-- A native top-level window that exists. -/
structure NativeWindow where
  hwnd : HWND
  className : String
  title : String
  style : Nat
  cx : Int
  cy : Int
  deriving DecidableEq, Repr

/-- A navigation request received by a control. -/
inductive Navigation where
  | url (uri : String)
  | string (html : String)
  deriving DecidableEq, Repr

/-- A call of one of the two callbacks the host implements. -/
inductive HostCall where
  | generic (webview : Nat) (event : Nat)
  | scriptNotify (webview : Nat) (value : String)
  deriving DecidableEq, Repr

/-- What the code can observe or change in the process through native calls. -/
structure World where
  /-- Whether `s_initOnce` has completed. -/
  initOnce : Bool := false
  /-- Number of calls of `winrt::init_apartment`. -/
  apartments : Nat := 0
  /-- Number of calls of `SetProcessDpiAwarenessContext`. -/
  dpiCalls : Nat := 0
  /-- Window class names registered in the process. -/
  classes : List String := []
  /-- The native windows that exist. -/
  windows : List NativeWindow := []
  /-- The windows on which `ShowWindow(hwnd, SW_SHOW)` has been executed. -/
  shown : List HWND := []
  /-- The windows whose `GWLP_USERDATA` holds the address of their `Window`. -/
  userData : List HWND := []
  /-- The `wParam` of a posted and not yet retrieved `WM_QUIT`. -/
  quit : Option Nat := none
  /-- Number of web view controls created so far. -/
  controls : Nat := 0
  /-- Navigation requests received by controls, with the control's number. -/
  navigations : List (Nat × Navigation) := []
  /-- Calls `InvokeScriptAsync(name, args)` received by controls. -/
  scripts : List (Nat × String × List String) := []
  /-- Control processes on which `Terminate` was called. -/
  terminated : List Nat := []
  /-- Calls of the host callbacks, oldest first. -/
  callbacks : List HostCall := []
  deriving DecidableEq, Repr

/-- How a piece of C++ code ends. -/
inductive Step (α : Type) where
  /-- Control went on normally with a value. -/
  | ok (a : α)
  /-- A C++ exception propagates. -/
  | raise
  /-- A native call blocks for ever. -/
  | block
  deriving DecidableEq, Repr

/-- How a call of a `noexcept` entry point ends for the caller. -/
inductive Outcome (α : Type) where
  | returned (a : α)
  /-- An exception reached the `noexcept` boundary: `std::terminate`. -/
  | terminated
  /-- The call never returns. -/
  | blocked
  deriving DecidableEq, Repr

/-- A `noexcept` function: an exception that reaches its boundary ends the
process instead of reaching the caller. -/
def noexcept {α : Type} : Step α → Outcome α
  | .ok a => .returned a
  | .raise => .terminated
  | .block => .blocked

/-! ## The web view control and the `Window` object -/

/-- The state of a `WebViewControl`. -/
structure Control where
  id : Nat
  IsVisible : Bool := false
  Bounds : Rect
  /-- Tokens of the registered `DOMContentLoaded` handlers, oldest first. -/
  domContentLoaded : List Nat := []
  /-- Tokens of the registered `ScriptNotify` handlers, oldest first. -/
  scriptNotify : List Nat := []
  /-- The next event token the control hands out. -/
  nextToken : Nat := 0
  deriving DecidableEq, Repr

/-- The members of `WebView::Window`; `none` is a null reference. -/
structure Window where
  m_hwnd : Option HWND := none
  m_owner : Nat := 0
  m_process : Option Nat := none
  m_control : Option Control := none
  deriving DecidableEq, Repr

/-- A message as the window procedure receives it, with what the native side
answers while it is handled. -/
structure Sent where
  msg : Nat
  wParam : Nat := 0
  lParam : Nat := 0
  /-- What `GetClientRect` stores while the message is handled. -/
  clientRect : RECT := ⟨0, 0, 0, 0⟩
  /-- What `DefWindowProc` returns for the message. -/
  defResult : Int := 0
  deriving DecidableEq, Repr

/-- What the native calls made by one `webview_new` answer. -/
structure Native where
  /-- Whether `InitOnceExecuteOnce`, when it has to run the callback, reports
  success (`false`: the primitive reports failure). -/
  initOnce : Bool := true
  /-- The result of `GetModuleHandle(nullptr)`; `none` is a null handle. -/
  moduleHandle : Option Nat := some 1
  /-- The atom `RegisterClassExW` returns for a class that is not registered
  yet (0: failure). -/
  classAtom : Nat := 1
  /-- Result of the first `MultiByteToWideChar` (the size query). -/
  charCount : Int := 1
  /-- Result of the second `MultiByteToWideChar` (the conversion). -/
  converted : Int := 1
  /-- Messages the window procedure receives during `CreateWindowW`. -/
  createMessages : List Sent := [{ msg := WM_NCCREATE }]
  /-- The handle of the window `CreateWindowW` sets out to create. -/
  hwnd : HWND := 1
  /-- Whether `CreateWindowW` returns that handle (`false`: it returns null). -/
  created : Bool := true
  /-- The process `WebViewControlProcess()` makes, `none` when it raises. -/
  process : Option Nat := some 1
  /-- What `GetClientRect` stores in the constructor's `_GetBounds`. -/
  clientRect : RECT := ⟨0, 0, 0, 0⟩
  /-- Whether `CreateWebViewControlAsync` returns an operation (`false`: it
  raises). -/
  createAsync : Bool := true
  /-- Whether `CreateEvent` returns a handle (`false`: null). -/
  createEvent : Bool := true
  /-- Whether `operation.Completed(handler)` completes (`false`: it raises). -/
  completed : Bool := true
  /-- The end of `CoWaitForMultipleHandles`: `some true` the event was signalled,
  `some false` a failure code, `none` the wait never returns. -/
  wait : Option Bool := some true
  /-- Whether `m_control.IsVisible(true)` completes (`false`: it raises). -/
  isVisible : Bool := true
  /-- Messages the window procedure receives during `ShowWindow`. -/
  showMessages : List Sent := []
  /-- Messages the window procedure receives during `UpdateWindow`. -/
  updateMessages : List Sent := []
  /-- Whether the `Uri` constructor accepts the string (`false`: it raises). -/
  uri : Bool := true
  /-- Whether `m_control.Navigate(uri)` completes (`false`: it raises). -/
  navigate : Bool := true
  /-- Whether `m_control.NavigateToString(html)` completes (`false`: it raises). -/
  navigateToString : Bool := true
  deriving DecidableEq, Repr

/-! ## Native facilities

What the operating system does with the state when the code calls it.  These
definitions describe the platform, not the repository. -/

/-- Models `InitOnceExecuteOnce(&s_initOnce, callback, ...)` with the callback
of `EnsureInitialized`: once the initialization has completed the call reports
success without running the callback; otherwise the callback runs
(`winrt::init_apartment`, `SetProcessDpiAwarenessContext`, `return TRUE`) and
the initialization is complete, unless the primitive reports failure. -/
def InitOnceExecuteOnce (n : Native) (w : World) : Bool × World :=
  if w.initOnce then (true, w)
  else if n.initOnce then
    (true, { w with initOnce := true, apartments := w.apartments + 1, dpiCalls := w.dpiCalls + 1 })
  else (false, w)

/-- Models `RegisterClassExW`: registering a class name that is already
registered fails (returns 0); otherwise the call returns the atom the system
chose, and a nonzero atom means the class is now registered. -/
def RegisterClassExW (n : Native) (lpszClassName : String) (w : World) : Nat × World :=
  if lpszClassName ∈ w.classes then (0, w)
  else if n.classAtom = 0 then (0, w)
  else (n.classAtom, { w with classes := w.classes ++ [lpszClassName] })

/-- Models `PostQuitMessage(nExitCode)`: a `WM_QUIT` whose `wParam` is the
exit code is pending for the thread. -/
def PostQuitMessage (nExitCode : Int) (w : World) : World :=
  { w with quit := some (WPARAMOfInt nExitCode) }

/-! ## `window.cpp` -/

/-- Models `WideStringFromString`: the text is kept as it is (the model does
not distinguish encodings); the two `MultiByteToWideChar` results decide
between the converted text, the empty string and an exception. -/
def WideStringFromString (n : Native) (narrow : String) : Step String :=
  if n.charCount > 0 then
    if n.converted = 0 then .raise
    else .ok narrow
  else .ok ""

/-- Models `AwaitAsyncOperation<T>`, for the operation that creates the
control: `operation` is the control the operation produces.  The completion
handler stores the result and signals the event; whether that has happened
when the wait ends is the answer of the wait, and a wait on an event that is
never signalled does not return. -/
def AwaitAsyncOperation (n : Native) (operation : Control) : Step Control :=
  if !n.createEvent then .raise
  else if !n.completed then .raise
  else
    match n.wait with
    | none => .block
    | some false => .raise
    | some true => .ok operation

/-- Models `Window::_GetBounds`, given what `GetClientRect` stored. -/
def Window._GetBounds (clientRect : RECT) : Rect :=
  { X := .ofLONG clientRect.left
    Y := .ofLONG clientRect.top
    Width := .ofLONG (subLONG clientRect.right clientRect.left)
    Height := .ofLONG (subLONG clientRect.bottom clientRect.top) }

/-- Models `Window::_UpdateBounds`. -/
def Window._UpdateBounds (this : Window) (clientRect : RECT) : Window :=
  match this.m_control with
  | some c => { this with m_control := some { c with Bounds := Window._GetBounds clientRect } }
  | none => this

/-- Models `Window::_HandleMessage`: the `LRESULT`, the object and the process
afterwards. -/
def Window._HandleMessage (this : Window) (m : Sent) (w : World) : Int × Window × World :=
  if m.msg = WM_DESTROY then
    (0, this, PostQuitMessage 0 w)
  else if m.msg = WM_SIZE then
    (0, this._UpdateBounds m.clientRect, w)
  else
    (m.defResult, this, w)

/-- Models `Window::s_WndProc` for a window whose creation parameter is `this`. -/
def Window.s_WndProc (this : Window) (hwnd : HWND) (m : Sent) (w : World) :
    Int × Window × World :=
  if m.msg = WM_NCCREATE then
    let w := { w with userData := hwnd :: w.userData }
    let this := { this with m_hwnd := some hwnd }
    this._HandleMessage m w
  else if hwnd ∈ w.userData then
    this._HandleMessage m w
  else
    (m.defResult, this, w)

/-- The system calls the window procedure with one message; after
`WM_NCDESTROY` has been handled the window no longer exists. -/
def send (this : Window) (hwnd : HWND) (m : Sent) (w : World) : Window × World :=
  let r := this.s_WndProc hwnd m w
  if m.msg = WM_NCDESTROY then
    (r.2.1, { r.2.2 with windows := r.2.2.windows.filter (fun x => x.hwnd ≠ hwnd),
                         userData := r.2.2.userData.filter (fun x => x ≠ hwnd) })
  else (r.2.1, r.2.2)

/-- The system calls the window procedure with a sequence of messages. -/
def sendAll (this : Window) (hwnd : HWND) : List Sent → World → Window × World
  | [], w => (this, w)
  | m :: ms, w =>
    let (this, w) := send this hwnd m w
    sendAll this hwnd ms w

/-- Models `CreateWindowW(lpClassName, lpWindowName, dwStyle, ..., this)`: the
window procedure receives the creation messages; the call returns the handle
of the new window, or null and then no window is left. -/
def CreateWindowW (n : Native) (this : Window) (lpClassName lpWindowName : String)
    (dwStyle : Nat) (size : SIZE) (w : World) : Option HWND × Window × World :=
  let w := { w with windows := w.windows ++
    [⟨n.hwnd, lpClassName, lpWindowName, dwStyle, size.cx, size.cy⟩] }
  let (this, w) := sendAll this n.hwnd n.createMessages w
  if n.created then (some n.hwnd, this, w)
  else
    (none, this, { w with windows := w.windows.filter (fun x => x.hwnd ≠ n.hwnd),
                          userData := w.userData.filter (fun x => x ≠ n.hwnd) })

/-- Models `ShowWindow(hwnd, SW_SHOW)`. -/
def ShowWindow (n : Native) (this : Window) (hwnd : HWND) (w : World) : Window × World :=
  sendAll this hwnd n.showMessages { w with shown := w.shown ++ [hwnd] }

/-- Models `UpdateWindow(hwnd)`. -/
def UpdateWindow (n : Native) (this : Window) (hwnd : HWND) (w : World) : Window × World :=
  sendAll this hwnd n.updateMessages w

/-- Models `Window::Window(title, size, resizable)`: the constructed object,
or the exception that leaves the constructor.  Of the class structure only
the class name is kept; `LoadCursor`, whose result the source does not test,
is left out. -/
def Window.ctor (n : Native) (title : String) (size : SIZE) (resizable : Bool) (w : World) :
    Step Window × World :=
  let this : Window := { m_hwnd := none, m_owner := 0 }
  match n.moduleHandle with
  | none => (.raise, w)
  | some _ =>
    let registered := RegisterClassExW n "WebViewControlWindow" w
    if registered.1 = 0 then (.raise, registered.2)
    else
      match WideStringFromString n title with
      | .raise => (.raise, registered.2)
      | .block => (.block, registered.2)
      | .ok titleWide =>
        let created := CreateWindowW n this "WebViewControlWindow" titleWide
          (if resizable then WS_OVERLAPPEDWINDOW else WS_OVERLAPPEDWINDOW ^^^ WS_THICKFRAME)
          size registered.2
        match created.1 with
        | none => (.raise, created.2.2)
        | some hwnd =>
          match n.process with
          | none => (.raise, created.2.2)
          | some process =>
            let this := { created.2.1 with m_process := some process }
            let bounds := Window._GetBounds n.clientRect
            if !n.createAsync then (.raise, created.2.2)
            else
              let op : Control := { id := created.2.2.controls, Bounds := bounds }
              let w := { created.2.2 with controls := created.2.2.controls + 1 }
              match AwaitAsyncOperation n op with
              | .raise => (.raise, w)
              | .block => (.block, w)
              | .ok control =>
                let this := { this with m_control := some control }
                if !n.isVisible then (.raise, w)
                else
                  let this := { this with m_control := some { control with IsVisible := true } }
                  let shown := ShowWindow n this hwnd w
                  let updated := UpdateWindow n shown.1 hwnd shown.2
                  (.ok updated.1, updated.2)

/-- Models `Window::~Window`: `m_process.Terminate()`. -/
def Window.dtor (this : Window) (w : World) : Step Unit × World :=
  match this.m_process with
  | some process => (.ok (), { w with terminated := w.terminated ++ [process] })
  | none => (.raise, w)

/-- Models `Window::NavigateToUrl`. -/
def Window.NavigateToUrl (this : Window) (n : Native) (url : String) (w : World) :
    Step Int × World :=
  if !n.uri then (.raise, w)
  else
    match this.m_control with
    | none => (.raise, w)
    | some c =>
      if !n.navigate then (.raise, w)
      else (.ok 0, { w with navigations := w.navigations ++ [(c.id, .url url)] })

/-- Models `Window::NavigateToString`. -/
def Window.NavigateToString (this : Window) (n : Native) (html : String) (w : World) :
    Step Int × World :=
  match this.m_control with
  | none => (.raise, w)
  | some c =>
    if !n.navigateToString then (.raise, w)
    else (.ok 0, { w with navigations := w.navigations ++ [(c.id, .string html)] })

/-- Models `Window::EvaluateScript`; `invoke` says whether `InvokeScriptAsync`
completes (`false`: it raises). -/
def Window.EvaluateScript (this : Window) (invoke : Bool) (script : String) (w : World) :
    Step Unit × World :=
  match this.m_control with
  | none => (.raise, w)
  | some c =>
    if !invoke then (.raise, w)
    else (.ok (), { w with scripts := w.scripts ++ [(c.id, "eval", [script])] })

/-- Models `m_control.DOMContentLoaded(handler)`: the control hands out a fresh
token and the handler is registered under it. -/
def Control.addDOMContentLoaded (c : Control) : Nat × Control :=
  (c.nextToken, { c with domContentLoaded := c.domContentLoaded ++ [c.nextToken],
                         nextToken := c.nextToken + 1 })

/-- Models `m_control.ScriptNotify(handler)`. -/
def Control.addScriptNotify (c : Control) : Nat × Control :=
  (c.nextToken, { c with scriptNotify := c.scriptNotify ++ [c.nextToken],
                         nextToken := c.nextToken + 1 })

/-- Models `m_control.DOMContentLoaded(token)`: the handler registered under the
token is removed. -/
def Control.removeDOMContentLoaded (c : Control) (token : Nat) : Control :=
  { c with domContentLoaded := c.domContentLoaded.filter (fun t => t ≠ token) }

/-- Models `m_control.ScriptNotify(token)`. -/
def Control.removeScriptNotify (c : Control) (token : Nat) : Control :=
  { c with scriptNotify := c.scriptNotify.filter (fun t => t ≠ token) }

/-- The control raises `DOMContentLoaded`: every registered handler runs, and
each is the handler of `Window::Run`, which calls
`webview_generic_callback(m_owner, DOMCONTENTLOADED)`. -/
def Window.raiseDOMContentLoaded (this : Window) (w : World) : World :=
  match this.m_control with
  | none => w
  | some c =>
    { w with callbacks := w.callbacks ++
        c.domContentLoaded.map (fun _ => HostCall.generic this.m_owner DOMCONTENTLOADED) }

/-- The control raises `ScriptNotify` with a value: every registered handler
runs, and each calls `webview_script_notify_callback(m_owner, value)`. -/
def Window.raiseScriptNotify (this : Window) (value : String) (w : World) : World :=
  match this.m_control with
  | none => w
  | some c =>
    { w with callbacks := w.callbacks ++
        c.scriptNotify.map (fun _ => HostCall.scriptNotify this.m_owner value) }

/-- What one `GetMessage` of the loop retrieves and `DispatchMessage` then
leads to. -/
inductive Retrieved where
  /-- A message that reaches `s_WndProc` for the window `hwnd`. -/
  | window (hwnd : HWND) (m : Sent)
  /-- The control raises `DOMContentLoaded`. -/
  | domContentLoaded
  /-- The control raises `ScriptNotify`. -/
  | scriptNotify (value : String)
  /-- A message for some other window. -/
  | other
  /-- A `WM_QUIT` posted by someone else, with its `wParam`. -/
  | quit (wParam : Nat)
  deriving DecidableEq, Repr

/-- Models `TranslateMessage(&msg); DispatchMessage(&msg);` for one retrieved
message. -/
def DispatchMessage (this : Window) (w : World) : Retrieved → Window × World
  | .window hwnd m => send this hwnd m w
  | .domContentLoaded => (this, this.raiseDOMContentLoaded w)
  | .scriptNotify value => (this, this.raiseScriptNotify value w)
  | .other => (this, w)
  | .quit _ => (this, w)

/-- The loop `while (GetMessage(&msg, nullptr, 0, 0)) { ... }` of
`Window::Run` over the messages that arrive.  `GetMessage` returns 0 for a
`WM_QUIT`: a pending one posted by `PostQuitMessage`, else one that arrives.
The result is the `wParam` of the `WM_QUIT` that ended the loop, or `none`
when no message is left and `GetMessage` blocks for ever. -/
def messageLoop : Window → List Retrieved → World → Option Nat × Window × World
  | this, [], w =>
    match w.quit with
    | some wParam => (some wParam, this, { w with quit := none })
    | none => (none, this, w)
  | this, item :: rest, w =>
    match w.quit with
    | some wParam => (some wParam, this, { w with quit := none })
    | none =>
      match item with
      | .quit wParam => (some wParam, this, w)
      | item =>
        let r := DispatchMessage this w item
        messageLoop r.1 rest r.2

/-- Models `Window::Run`, declared `noexcept`: registering a handler through a
null control reference ends the process. -/
def Window.Run (this : Window) (webview : Nat) (queue : List Retrieved) (w : World) :
    Outcome Int × Window × World :=
  let this := { this with m_owner := webview }
  match this.m_control with
  | none => (.terminated, this, w)
  | some c =>
    let (domContentLoadedToken, c) := c.addDOMContentLoaded
    let (scriptNotifyToken, c) := c.addScriptNotify
    let this := { this with m_control := some c }
    let looped := messageLoop this queue w
    match looped.1 with
    | none => (.blocked, looped.2.1, looped.2.2)
    | some wParam =>
      let control := looped.2.1.m_control.map (fun c =>
        (c.removeDOMContentLoaded domContentLoadedToken).removeScriptNotify scriptNotifyToken)
      (.returned (intOfWPARAM wParam), { looped.2.1 with m_control := control }, looped.2.2)

/-! ## `webview.cpp` -/

/-- Models `IsValidContentType`. -/
def IsValidContentType (type : ContentType) : Bool :=
  type == ContentType.Url || type == ContentType.Html

/-- Models `EnsureInitialized`. -/
def EnsureInitialized (n : Native) (w : World) : Step Unit × World :=
  let (success, w) := InitOnceExecuteOnce n w
  if !success then (.raise, w)
  else (.ok (), w)

/-- The body of `webview_new`; `none` is a null pointer. -/
def webview_new.body (n : Native) (title content : Option String) (contentType : ContentType)
    (width height : Int) (resizable : Bool) (w : World) : Step (Option Window) × World :=
  match EnsureInitialized n w with
  | (.raise, w) => (.raise, w)
  | (.block, w) => (.block, w)
  | (.ok (), w) =>
    match title, content with
    | some title, some content =>
      if width ≥ 0 ∧ height ≥ 0 ∧ IsValidContentType contentType = true then
        match Window.ctor n title ⟨width, height⟩ resizable w with
        | (.raise, w) => (.ok none, w)
        | (.block, w) => (.block, w)
        | (.ok window, w) =>
          let navigated :=
            if contentType = ContentType.Url then window.NavigateToUrl n content w
            else if contentType = ContentType.Html then window.NavigateToString n content w
            else (.ok 0, w)
          match navigated.1 with
          | .block => (.block, navigated.2)
          | _ => (.ok (some window), navigated.2)
      else (.ok none, w)
    | _, _ => (.ok none, w)

/-- Models `webview_new`, declared `noexcept`. -/
def webview_new (n : Native) (title content : Option String) (contentType : ContentType)
    (width height : Int) (resizable : Bool) (w : World) : Outcome (Option Window) × World :=
  let r := webview_new.body n title content contentType width height resizable w
  (noexcept r.1, r.2)

/-- Models `webview_run`, for a handle that points to a `Window`. -/
def webview_run (window : Window) (webview : Nat) (queue : List Retrieved) (w : World) :
    Outcome Int × Window × World :=
  window.Run webview queue w

/-- Models `webview_free`: `delete` of a null pointer does nothing, otherwise the
destructor runs. -/
def webview_free (window : Option Window) (w : World) : Outcome Unit × World :=
  match window with
  | none => (.returned (), w)
  | some internalWindow =>
    let r := internalWindow.dtor w
    (noexcept r.1, r.2)

/-- Models `webview_eval_script`, for a handle that points to a `Window`; `invoke`
says whether `InvokeScriptAsync` completes. -/
def webview_eval_script (window : Window) (invoke : Bool) (script : String) (w : World) :
    Outcome Int × World :=
  match window.EvaluateScript invoke script w with
  | (.ok (), w) => (.returned 0, w)
  | (.raise, w) => (.returned 1, w)
  | (.block, w) => (.blocked, w)

/-! ## Notions used in the statements -/

/-- The states of the process that come later than a given one: those reached
from it by any number of calls of the four entry points, with any arguments
and any native answers. -/
inductive World.Later (w : World) : World → Prop where
  | now : World.Later w w
  | new {w' : World} (h : World.Later w w') (n : Native) (title content : Option String)
      (contentType : ContentType) (width height : Int) (resizable : Bool) :
      World.Later w (webview_new n title content contentType width height resizable w').2
  | run {w' : World} (h : World.Later w w') (window : Window) (webview : Nat)
      (queue : List Retrieved) : World.Later w (webview_run window webview queue w').2.2
  | free {w' : World} (h : World.Later w w') (window : Option Window) :
      World.Later w (webview_free window w').2
  | eval {w' : World} (h : World.Later w w') (window : Window) (invoke : Bool)
      (script : String) : World.Later w (webview_eval_script window invoke script w').2

/-- The parts of the process that handling window messages never touches. -/
def World.sameProcess (w w' : World) : Prop :=
  w'.initOnce = w.initOnce ∧ w'.apartments = w.apartments ∧ w'.dpiCalls = w.dpiCalls ∧
  w'.classes = w.classes ∧ w'.shown = w.shown ∧ w'.controls = w.controls ∧
  w'.navigations = w.navigations ∧ w'.scripts = w.scripts ∧ w'.terminated = w.terminated ∧
  w'.callbacks = w.callbacks

/-- The parts of the object that handling window messages never touches: the
process reference, the owner, and everything of the control but its bounds. -/
def Window.sameControl (this this' : Window) : Prop :=
  this'.m_process = this.m_process ∧ this'.m_owner = this.m_owner ∧
  this'.m_control.map (fun c => (c.id, c.IsVisible, c.domContentLoaded, c.scriptNotify, c.nextToken))
    = this.m_control.map (fun c => (c.id, c.IsVisible, c.domContentLoaded, c.scriptNotify, c.nextToken))

/-- The named steps of `Window::Window` whose failure makes the constructor
raise, each with the native answer that is the failure: a null module handle,
a zero class atom (also the answer for a class that is registered already), a
conversion call that returns 0 after a positive size, a null window handle,
control creation that raises or whose wait fails, and `IsVisible(true)` that
raises once the control exists. -/
inductive ConstructionFails (n : Native) (w : World) : Prop where
  | moduleHandle (h : n.moduleHandle = none)
  | registerClass (h : "WebViewControlWindow" ∈ w.classes ∨ n.classAtom = 0)
  | titleConversion (hsize : 0 < n.charCount) (h : n.converted = 0)
  | createWindow (h : n.created = false)
  | controlProcess (h : n.process = none)
  | controlCreate (h : n.createAsync = false)
  | controlEvent (h : n.createEvent = false)
  | controlCompleted (h : n.completed = false)
  | controlWait (h : n.wait = some false)
  | controlVisible (hwait : n.wait = some true) (h : n.isVisible = false)

/-- Whether the navigation call that `webview_new` makes for the content type
completes: the `Uri` constructor and `Navigate` for a URL, `NavigateToString`
for markup. -/
def Native.navigationCompletes (n : Native) (contentType : ContentType) : Bool :=
  if contentType = ContentType.Url then n.uri && n.navigate else n.navigateToString

/-- The tokens of the registered handlers are tokens the control has handed
out. -/
def Control.Fresh (c : Control) : Prop :=
  (∀ t ∈ c.domContentLoaded, t < c.nextToken) ∧ (∀ t ∈ c.scriptNotify, t < c.nextToken)

/-- A retrieved message after which the loop goes on: not a `WM_QUIT`, and not
a `WM_DESTROY` or `WM_NCDESTROY` for a window. -/
def Retrieved.keepsLooping : Retrieved → Bool
  | .quit _ => false
  | .window _ m => m.msg != WM_DESTROY && m.msg != WM_NCDESTROY
  | _ => true

/-- Dispatching a sequence of retrieved messages, one after the other. -/
def dispatchAll : Window → World → List Retrieved → Window × World
  | this, w, [] => (this, w)
  | this, w, item :: rest =>
    dispatchAll (DispatchMessage this w item).1 (DispatchMessage this w item).2 rest

/-- The object while the loop of `Window::Run` runs: the owner is recorded and
both handlers are registered. -/
def Window.running (this : Window) (webview : Nat) (c : Control) : Window :=
  { this with m_owner := webview, m_control := some c.addDOMContentLoaded.2.addScriptNotify.2 }

/-- The fields of a `RECT` are `LONG` values. -/
def RECT.IsLONG (r : RECT) : Prop :=
  (-2 ^ 31 ≤ r.left ∧ r.left < 2 ^ 31) ∧ (-2 ^ 31 ≤ r.top ∧ r.top < 2 ^ 31) ∧
  (-2 ^ 31 ≤ r.right ∧ r.right < 2 ^ 31) ∧ (-2 ^ 31 ≤ r.bottom ∧ r.bottom < 2 ^ 31)

/-! ## What the window procedure leaves alone -/

theorem World.sameProcess_refl (w : World) : w.sameProcess w := by
  simp [World.sameProcess]

theorem World.sameProcess_trans {a b c : World} (h₁ : a.sameProcess b) (h₂ : b.sameProcess c) :
    a.sameProcess c := by
  simp only [World.sameProcess] at *
  obtain ⟨a1, a2, a3, a4, a5, a6, a7, a8, a9, a10⟩ := h₁
  obtain ⟨b1, b2, b3, b4, b5, b6, b7, b8, b9, b10⟩ := h₂
  exact ⟨b1.trans a1, b2.trans a2, b3.trans a3, b4.trans a4, b5.trans a5, b6.trans a6,
    b7.trans a7, b8.trans a8, b9.trans a9, b10.trans a10⟩

theorem Window.sameControl_refl (this : Window) : this.sameControl this := by
  simp [Window.sameControl]

theorem Window.sameControl_trans {a b c : Window} (h₁ : a.sameControl b) (h₂ : b.sameControl c) :
    a.sameControl c := by
  simp only [Window.sameControl] at *
  exact ⟨h₂.1.trans h₁.1, h₂.2.1.trans h₁.2.1, h₂.2.2.trans h₁.2.2⟩

theorem World.sameProcess.initOnce_eq {w w' : World} (h : w.sameProcess w') :
    w'.initOnce = w.initOnce := h.1

theorem World.sameProcess.classes_eq {w w' : World} (h : w.sameProcess w') :
    w'.classes = w.classes := h.2.2.2.1

theorem World.sameProcess.shown_eq {w w' : World} (h : w.sameProcess w') :
    w'.shown = w.shown := h.2.2.2.2.1

theorem World.sameProcess.controls_eq {w w' : World} (h : w.sameProcess w') :
    w'.controls = w.controls := h.2.2.2.2.2.1

theorem World.sameProcess.navigations_eq {w w' : World} (h : w.sameProcess w') :
    w'.navigations = w.navigations := h.2.2.2.2.2.2.1

theorem World.sameProcess.callbacks_eq {w w' : World} (h : w.sameProcess w') :
    w'.callbacks = w.callbacks := h.2.2.2.2.2.2.2.2.2

theorem Window.sameControl.process_eq {this this' : Window} (h : this.sameControl this') :
    this'.m_process = this.m_process := h.1

theorem Window.sameControl.owner_eq {this this' : Window} (h : this.sameControl this') :
    this'.m_owner = this.m_owner := h.2.1

theorem Window.sameControl.control_eq {this this' : Window} (h : this.sameControl this') :
    this'.m_control.map
        (fun c => (c.id, c.IsVisible, c.domContentLoaded, c.scriptNotify, c.nextToken))
      = this.m_control.map
        (fun c => (c.id, c.IsVisible, c.domContentLoaded, c.scriptNotify, c.nextToken)) := h.2.2

theorem Window._UpdateBounds_sameControl (this : Window) (r : RECT) :
    this.sameControl (this._UpdateBounds r) := by
  unfold Window._UpdateBounds Window.sameControl
  cases h : this.m_control <;> simp [h]

theorem Window._HandleMessage_same (this : Window) (m : Sent) (w : World) :
    this.sameControl (this._HandleMessage m w).2.1 ∧ w.sameProcess (this._HandleMessage m w).2.2 ∧
    (this._HandleMessage m w).2.1.m_hwnd = this.m_hwnd := by
  unfold Window._HandleMessage
  split
  · simp [Window.sameControl, World.sameProcess, PostQuitMessage]
  · split
    · refine ⟨Window._UpdateBounds_sameControl _ _, World.sameProcess_refl _, ?_⟩
      unfold Window._UpdateBounds
      cases h : this.m_control <;> simp [h]
    · simp [Window.sameControl, World.sameProcess]

theorem Window.s_WndProc_same (this : Window) (hwnd : HWND) (m : Sent) (w : World) :
    this.sameControl (this.s_WndProc hwnd m w).2.1 ∧ w.sameProcess (this.s_WndProc hwnd m w).2.2 := by
  unfold Window.s_WndProc
  split
  · have h := Window._HandleMessage_same { this with m_hwnd := some hwnd } m
      { w with userData := hwnd :: w.userData }
    exact ⟨h.1, h.2.1⟩
  · split
    · have h := Window._HandleMessage_same this m w
      exact ⟨h.1, h.2.1⟩
    · exact ⟨Window.sameControl_refl _, World.sameProcess_refl _⟩

theorem send_same (this : Window) (hwnd : HWND) (m : Sent) (w : World) :
    this.sameControl (send this hwnd m w).1 ∧ w.sameProcess (send this hwnd m w).2 := by
  have h := Window.s_WndProc_same this hwnd m w
  unfold send
  simp only []
  split
  · exact ⟨h.1, by simpa [World.sameProcess] using h.2⟩
  · exact ⟨h.1, h.2⟩

theorem sendAll_same (hwnd : HWND) (ms : List Sent) :
    ∀ (this : Window) (w : World),
      this.sameControl (sendAll this hwnd ms w).1 ∧ w.sameProcess (sendAll this hwnd ms w).2 := by
  induction ms with
  | nil => intro this w; exact ⟨Window.sameControl_refl _, World.sameProcess_refl _⟩
  | cons m ms ih =>
    intro this w
    simp only [sendAll]
    have h₁ := send_same this hwnd m w
    have h₂ := ih (send this hwnd m w).1 (send this hwnd m w).2
    exact ⟨Window.sameControl_trans h₁.1 h₂.1, World.sameProcess_trans h₁.2 h₂.2⟩

/-! ## The constructor -/

theorem RegisterClassExW_frame (n : Native) (c : String) (w : World) :
    (RegisterClassExW n c w).2 = { w with classes := (RegisterClassExW n c w).2.classes } := by
  unfold RegisterClassExW
  split
  · rfl
  · split <;> rfl

theorem RegisterClassExW_registered (n : Native) (c : String) (w : World)
    (h : (RegisterClassExW n c w).1 ≠ 0) : c ∈ (RegisterClassExW n c w).2.classes := by
  revert h
  unfold RegisterClassExW
  split
  · simp
  · split <;> simp_all

theorem RegisterClassExW_again (n : Native) (c : String) (w : World) (h : c ∈ w.classes) :
    RegisterClassExW n c w = (0, w) := by
  simp [RegisterClassExW, h]

theorem CreateWindowW_same (n : Native) (this : Window) (c t : String) (st : Nat) (size : SIZE)
    (w : World) :
    this.sameControl (CreateWindowW n this c t st size w).2.1 ∧
    w.sameProcess (CreateWindowW n this c t st size w).2.2 := by
  unfold CreateWindowW
  have h := sendAll_same n.hwnd n.createMessages this
    { w with windows := w.windows ++ [⟨n.hwnd, c, t, st, size.cx, size.cy⟩] }
  simp only []
  split
  · exact ⟨h.1, by simpa [World.sameProcess] using h.2⟩
  · exact ⟨h.1, by simpa [World.sameProcess] using h.2⟩

theorem CreateWindowW_hwnd (n : Native) (this : Window) (c t : String) (st : Nat) (size : SIZE)
    (w : World) (hwnd : HWND) (h : (CreateWindowW n this c t st size w).1 = some hwnd) :
    hwnd = n.hwnd := by
  revert h
  unfold CreateWindowW
  simp only []
  split <;> simp
  exact fun h => h.symm

/-- A constructor that does not complete has not executed `ShowWindow`, and
no control has received a navigation request. -/
theorem Window.ctor_shown_of_not_ok (n : Native) (title : String) (size : SIZE) (resizable : Bool)
    (w : World) (h : ∀ win, (Window.ctor n title size resizable w).1 ≠ .ok win) :
    (Window.ctor n title size resizable w).2.shown = w.shown ∧
    (Window.ctor n title size resizable w).2.navigations = w.navigations := by
  revert h
  unfold Window.ctor
  simp only []
  have hr : (RegisterClassExW n "WebViewControlWindow" w).2.shown = w.shown ∧
      (RegisterClassExW n "WebViewControlWindow" w).2.navigations = w.navigations := by
    rw [RegisterClassExW_frame]
    exact ⟨rfl, rfl⟩
  have hc : ∀ this t st,
      (CreateWindowW n this "WebViewControlWindow" t st size
        (RegisterClassExW n "WebViewControlWindow" w).2).2.2.shown = w.shown ∧
      (CreateWindowW n this "WebViewControlWindow" t st size
        (RegisterClassExW n "WebViewControlWindow" w).2).2.2.navigations = w.navigations := by
    intro this t st
    have h := (CreateWindowW_same n this "WebViewControlWindow" t st size
      (RegisterClassExW n "WebViewControlWindow" w).2).2
    exact ⟨h.shown_eq.trans hr.1, h.navigations_eq.trans hr.2⟩
  repeat' split
  all_goals simp_all

/-- A constructor that finds the class registered raises at the registration
and changes nothing. -/
theorem Window.ctor_of_registered (n : Native) (title : String) (size : SIZE) (resizable : Bool)
    (w : World) (h : "WebViewControlWindow" ∈ w.classes) :
    Window.ctor n title size resizable w = (.raise, w) := by
  unfold Window.ctor
  simp only [RegisterClassExW_again n _ w h]
  split <;> simp

theorem ShowWindow_same (n : Native) (this : Window) (hwnd : HWND) (w : World) :
    this.sameControl (ShowWindow n this hwnd w).1 ∧
    World.sameProcess { w with shown := w.shown ++ [hwnd] } (ShowWindow n this hwnd w).2 :=
  sendAll_same hwnd n.showMessages this { w with shown := w.shown ++ [hwnd] }

theorem UpdateWindow_same (n : Native) (this : Window) (hwnd : HWND) (w : World) :
    this.sameControl (UpdateWindow n this hwnd w).1 ∧ w.sameProcess (UpdateWindow n this hwnd w).2 :=
  sendAll_same hwnd n.updateMessages this w

theorem AwaitAsyncOperation_ok (n : Native) (op c : Control)
    (h : AwaitAsyncOperation n op = .ok c) :
    c = op ∧ n.createEvent = true ∧ n.completed = true ∧ n.wait = some true := by
  revert h
  unfold AwaitAsyncOperation
  repeat' split
  all_goals simp_all

/-- What a constructor that completes has done: the class is registered, the
window has been shown, one control has been created, nothing has been
navigated yet, and the object holds the process and a visible control with no
event handler. -/
theorem Window.ctor_ok (n : Native) (title : String) (size : SIZE) (resizable : Bool)
    (w : World) (win : Window) (h : (Window.ctor n title size resizable w).1 = .ok win) :
    "WebViewControlWindow" ∈ (Window.ctor n title size resizable w).2.classes ∧
    (Window.ctor n title size resizable w).2.initOnce = w.initOnce ∧
    (Window.ctor n title size resizable w).2.shown = w.shown ++ [n.hwnd] ∧
    (Window.ctor n title size resizable w).2.navigations = w.navigations ∧
    (Window.ctor n title size resizable w).2.controls = w.controls + 1 ∧
    win.m_process = n.process ∧ n.process ≠ none ∧
    (win.m_control.map fun c => (c.id, c.IsVisible, c.domContentLoaded, c.scriptNotify, c.nextToken))
      = some (w.controls, true, [], [], 0) := by
  revert h
  unfold Window.ctor
  simp only []
  generalize (if resizable = true then WS_OVERLAPPEDWINDOW
    else WS_OVERLAPPEDWINDOW ^^^ WS_THICKFRAME) = st
  have hr1 := RegisterClassExW_frame n "WebViewControlWindow" w
  have hr2 := RegisterClassExW_registered n "WebViewControlWindow" w
  generalize RegisterClassExW n "WebViewControlWindow" w = R at hr1 hr2 ⊢
  have hh : ∀ t, _ := fun t => CreateWindowW_hwnd n { m_hwnd := none, m_owner := 0 }
    "WebViewControlWindow" t st size R.2
  repeat' split
  all_goals first
    | (intro h; simp at h; done)
    | skip
  intro h
  simp only [Step.ok.injEq] at h
  subst h
  rename_i _ _ _ _ _ hC _ _ hP _ _ _ hA _
  obtain ⟨hA2, -⟩ := AwaitAsyncOperation_ok n _ _ hA
  subst hA2
  have e := hh _ _ hC
  subst e
  simp only [(UpdateWindow_same n _ _ _).2.classes_eq, (ShowWindow_same n _ _ _).2.classes_eq,
    (UpdateWindow_same n _ _ _).2.initOnce_eq, (ShowWindow_same n _ _ _).2.initOnce_eq,
    (UpdateWindow_same n _ _ _).2.shown_eq, (ShowWindow_same n _ _ _).2.shown_eq,
    (UpdateWindow_same n _ _ _).2.navigations_eq, (ShowWindow_same n _ _ _).2.navigations_eq,
    (UpdateWindow_same n _ _ _).2.controls_eq, (ShowWindow_same n _ _ _).2.controls_eq,
    (UpdateWindow_same n _ _ _).1.process_eq, (ShowWindow_same n _ _ _).1.process_eq,
    (UpdateWindow_same n _ _ _).1.control_eq, (ShowWindow_same n _ _ _).1.control_eq,
    (CreateWindowW_same n _ _ _ _ _ _).2.classes_eq, (CreateWindowW_same n _ _ _ _ _ _).2.initOnce_eq,
    (CreateWindowW_same n _ _ _ _ _ _).2.shown_eq, (CreateWindowW_same n _ _ _ _ _ _).2.navigations_eq,
    (CreateWindowW_same n _ _ _ _ _ _).2.controls_eq]
  have e1 := congrArg World.initOnce hr1
  have e2 := congrArg World.shown hr1
  have e3 := congrArg World.navigations hr1
  have e4 := congrArg World.controls hr1
  simp only [] at e1 e2 e3 e4
  exact ⟨hr2 (by assumption), e1, by rw [e2], e3, by rw [e4], hP.symm, by simp [hP],
    by simp [e4]⟩

theorem WideStringFromString_ne_block (n : Native) (narrow : String) :
    WideStringFromString n narrow ≠ .block := by
  unfold WideStringFromString
  repeat' split
  all_goals simp

theorem CreateWindowW_none (n : Native) (this : Window) (c t : String) (st : Nat) (size : SIZE)
    (w : World) (h : n.created = false) : (CreateWindowW n this c t st size w).1 = none := by
  simp [CreateWindowW, h]

theorem Window.ctor_raise_of_fails (n : Native) (title : String) (size : SIZE) (resizable : Bool)
    (w : World) (h : ConstructionFails n w) :
    (Window.ctor n title size resizable w).1 = .raise := by
  unfold Window.ctor
  simp only []
  cases h with
  | moduleHandle h => simp [h]
  | registerClass h =>
    have : (RegisterClassExW n "WebViewControlWindow" w).1 = 0 := by
      unfold RegisterClassExW
      rcases h with h | h <;> simp [h]
    split <;> simp [this]
  | titleConversion hsize h =>
    have : WideStringFromString n title = .raise := by simp [WideStringFromString, hsize, h]
    repeat' split
    all_goals simp_all
  | createWindow h =>
    have := fun this t st w => CreateWindowW_none n this "WebViewControlWindow" t st size w h
    repeat' split
    all_goals simp_all [WideStringFromString_ne_block]
  | controlProcess h =>
    repeat' split
    all_goals simp_all [WideStringFromString_ne_block]
  | controlCreate h =>
    repeat' split
    all_goals simp_all [WideStringFromString_ne_block]
  | controlEvent h =>
    repeat' split
    all_goals simp_all [WideStringFromString_ne_block, AwaitAsyncOperation]
  | controlCompleted h =>
    repeat' split
    all_goals simp_all [WideStringFromString_ne_block, AwaitAsyncOperation]
  | controlWait h =>
    repeat' split
    all_goals simp_all [WideStringFromString_ne_block, AwaitAsyncOperation]
  | controlVisible hwait h =>
    have hb : ∀ op, AwaitAsyncOperation n op ≠ .block := by
      intro op
      unfold AwaitAsyncOperation
      repeat' split
      all_goals simp_all
    repeat' split
    all_goals simp_all [WideStringFromString_ne_block]

/-! ## `webview_new` -/

theorem EnsureInitialized_ok (n : Native) (w : World) (h : w.initOnce = true ∨ n.initOnce = true) :
    (EnsureInitialized n w).1 = .ok () ∧ (EnsureInitialized n w).2.initOnce = true ∧
    (EnsureInitialized n w).2.classes = w.classes ∧ (EnsureInitialized n w).2.windows = w.windows ∧
    (EnsureInitialized n w).2.shown = w.shown ∧ (EnsureInitialized n w).2.controls = w.controls ∧
    (EnsureInitialized n w).2.navigations = w.navigations := by
  unfold EnsureInitialized InitOnceExecuteOnce
  by_cases h1 : w.initOnce = true
  · simp [h1]
  · have h2 : n.initOnce = true := h.resolve_left h1
    simp [h1, h2]

theorem EnsureInitialized_raise (n : Native) (w : World) (h1 : w.initOnce = false)
    (h2 : n.initOnce = false) : EnsureInitialized n w = (.raise, w) := by
  simp [EnsureInitialized, InitOnceExecuteOnce, h1, h2]

theorem EnsureInitialized_of_initialized (n : Native) (w : World) (h : w.initOnce = true) :
    EnsureInitialized n w = (.ok (), w) := by
  simp [EnsureInitialized, InitOnceExecuteOnce, h]

theorem EnsureInitialized_cases (n : Native) (w : World) :
    (EnsureInitialized n w).1 = .ok () ∧ (w.initOnce = true ∨ n.initOnce = true) ∨
    EnsureInitialized n w = (.raise, w) := by
  by_cases h1 : w.initOnce = true
  · exact Or.inl ⟨(EnsureInitialized_ok n w (Or.inl h1)).1, Or.inl h1⟩
  · by_cases h2 : n.initOnce = true
    · exact Or.inl ⟨(EnsureInitialized_ok n w (Or.inr h2)).1, Or.inr h2⟩
    · exact Or.inr (EnsureInitialized_raise n w (by simpa using h1) (by simpa using h2))

/-- With the runtime initialized, invalid arguments make `webview_new` return
null without constructing a `Window`: apart from the one-time initialization
the process is as before. -/
theorem webview_new_invalid_of_initialized (n : Native) (title content : Option String)
    (contentType : ContentType) (width height : Int) (resizable : Bool) (w : World)
    (hinit : w.initOnce = true ∨ n.initOnce = true)
    (h : title = none ∨ content = none ∨ width < 0 ∨ height < 0 ∨
      (contentType ≠ ContentType.Url ∧ contentType ≠ ContentType.Html)) :
    webview_new n title content contentType width height resizable w
      = (.returned none, (EnsureInitialized n w).2) := by
  have hi := (EnsureInitialized_ok n w hinit).1
  unfold webview_new webview_new.body
  generalize EnsureInitialized n w = E at hi ⊢
  obtain ⟨e1, e2⟩ := E
  simp only [] at hi
  subst hi
  simp only [noexcept]
  rcases title with _ | title
  · rfl
  · rcases content with _ | content
    · rfl
    · have : ¬ (width ≥ 0 ∧ height ≥ 0 ∧ IsValidContentType contentType = true) := by
        rcases h with h | h | h | h | h
        · cases h
        · cases h
        · omega
        · omega
        · simp [IsValidContentType, h.1, h.2]
      simp [this, noexcept]

theorem Window.NavigateToUrl_frame (this : Window) (n : Native) (url : String) (w : World) :
    (this.NavigateToUrl n url w).1 ≠ .block ∧
    (this.NavigateToUrl n url w).2 = { w with navigations := (this.NavigateToUrl n url w).2.navigations } := by
  unfold Window.NavigateToUrl
  repeat' split
  all_goals simp

theorem Window.NavigateToString_frame (this : Window) (n : Native) (html : String) (w : World) :
    (this.NavigateToString n html w).1 ≠ .block ∧
    (this.NavigateToString n html w).2
      = { w with navigations := (this.NavigateToString n html w).2.navigations } := by
  unfold Window.NavigateToString
  repeat' split
  all_goals simp

/-- The body of `webview_new` once the runtime is initialized and the
arguments have passed the validation. -/
theorem webview_new_valid (n : Native) (title content : String)
    (contentType : ContentType) (width height : Int) (resizable : Bool) (w : World)
    (hinit : w.initOnce = true ∨ n.initOnce = true)
    (hw : 0 ≤ width) (hh : 0 ≤ height) (hct : IsValidContentType contentType = true) :
    webview_new n (some title) (some content) contentType width height resizable w =
      match Window.ctor n title ⟨width, height⟩ resizable (EnsureInitialized n w).2 with
      | (.raise, w) => (.returned none, w)
      | (.block, w) => (.blocked, w)
      | (.ok window, w) =>
        (.returned (some window),
          (if contentType = ContentType.Url then window.NavigateToUrl n content w
            else if contentType = ContentType.Html then window.NavigateToString n content w
            else (.ok 0, w)).2) := by
  have hi := (EnsureInitialized_ok n w hinit).1
  unfold webview_new webview_new.body
  generalize EnsureInitialized n w = E at hi ⊢
  obtain ⟨e1, e2⟩ := E
  simp only [] at hi
  subst hi
  simp only [ge_iff_le, hw, hh, hct, and_self, ↓reduceIte]
  generalize Window.ctor n title ⟨width, height⟩ resizable e2 = C
  obtain ⟨c1, c2⟩ := C
  rcases c1 with win | _ | _
  · simp only []
    have h1 := (Window.NavigateToUrl_frame win n content c2).1
    have h2 := (Window.NavigateToString_frame win n content c2).1
    split <;> rename_i hb
    · exfalso
      revert hb
      split
      · exact h1
      · split
        · exact h2
        · simp
    · simp [noexcept]
  · simp [noexcept]
  · simp [noexcept]

theorem webview_new_of_init_failure (n : Native) (title content : Option String)
    (contentType : ContentType) (width height : Int) (resizable : Bool) (w : World)
    (h1 : w.initOnce = false) (h2 : n.initOnce = false) :
    webview_new n title content contentType width height resizable w = (.terminated, w) := by
  simp [webview_new, webview_new.body, EnsureInitialized_raise n w h1 h2, noexcept]

/-- A non-null result of `webview_new`: the arguments were valid, the runtime
was initialized and the constructor completed. -/
theorem webview_new_some (n : Native) (title content : Option String)
    (contentType : ContentType) (width height : Int) (resizable : Bool) (w : World) (win : Window)
    (h : (webview_new n title content contentType width height resizable w).1 = .returned (some win)) :
    ∃ t c, title = some t ∧ content = some c ∧ (w.initOnce = true ∨ n.initOnce = true) ∧
      0 ≤ width ∧ 0 ≤ height ∧ IsValidContentType contentType = true ∧
      (Window.ctor n t ⟨width, height⟩ resizable (EnsureInitialized n w).2).1 = .ok win := by
  rcases EnsureInitialized_cases n w with ⟨-, hor⟩ | hi
  · by_cases hv : ∃ t c, title = some t ∧ content = some c ∧ 0 ≤ width ∧ 0 ≤ height ∧
        IsValidContentType contentType = true
    · obtain ⟨t, c, rfl, rfl, hw, hh, hct⟩ := hv
      refine ⟨t, c, rfl, rfl, hor, hw, hh, hct, ?_⟩
      rw [webview_new_valid n t c contentType width height resizable w hor hw hh hct] at h
      revert h
      generalize Window.ctor n t ⟨width, height⟩ resizable (EnsureInitialized n w).2 = C
      obtain ⟨c1, c2⟩ := C
      rcases c1 with win' | _ | _ <;> simp
    · exfalso
      have hinv : title = none ∨ content = none ∨ width < 0 ∨ height < 0 ∨
          (contentType ≠ ContentType.Url ∧ contentType ≠ ContentType.Html) := by
        by_contra hc
        simp only [not_or, not_and, not_lt] at hc
        obtain ⟨h1, h2, h3, h4, h5⟩ := hc
        obtain ⟨t, ht⟩ := Option.ne_none_iff_exists'.mp h1
        obtain ⟨c, hc⟩ := Option.ne_none_iff_exists'.mp h2
        refine hv ⟨t, c, ht, hc, h3, h4, ?_⟩
        unfold IsValidContentType
        by_cases h6 : contentType = ContentType.Url
        · simp [h6]
        · simp [not_not.mp (h5 h6)]
      rw [webview_new_invalid_of_initialized n title content contentType width height resizable w
        hor hinv] at h
      simp at h
  · exfalso
    simp [webview_new, webview_new.body, hi, noexcept] at h

/-- The window of a handle that `webview_new` returns holds a control on which
no handler is registered, so its tokens are fresh. -/
theorem webview_new_handle_fresh (n : Native) (title content : Option String)
    (contentType : ContentType) (width height : Int) (resizable : Bool) (w : World) (win : Window)
    (h : (webview_new n title content contentType width height resizable w).1
      = .returned (some win)) :
    ∃ c, win.m_control = some c ∧ c.domContentLoaded = [] ∧ c.scriptNotify = [] ∧ c.Fresh := by
  obtain ⟨t, c, rfl, rfl, hor, hw, hh, hct, hc⟩ :=
    webview_new_some n title content contentType width height resizable w win h
  obtain ⟨-, -, -, -, -, -, -, k8⟩ :=
    Window.ctor_ok n t ⟨width, height⟩ resizable (EnsureInitialized n w).2 win hc
  rcases hm : win.m_control with _ | ctl
  · simp [hm] at k8
  · simp only [hm, Option.map_some', Option.some.injEq, Prod.mk.injEq] at k8
    obtain ⟨-, -, hd, hs, -⟩ := k8
    exact ⟨ctl, rfl, hd, hs, by simp [Control.Fresh, hd, hs]⟩

/-- Neither style the constructor passes to `CreateWindowW` has the
`WS_VISIBLE` bit: a window is visible only once `ShowWindow` has run. -/
theorem window_style_not_visible (resizable : Bool) :
    (if resizable then WS_OVERLAPPEDWINDOW else WS_OVERLAPPEDWINDOW ^^^ WS_THICKFRAME)
      &&& WS_VISIBLE = 0 := by
  cases resizable <;> decide

/-- C2, amended: for every call of `webview_new` that returns a non-null
handle, the control of the new window has received exactly one navigation
request when the navigation call completed, a URL navigation to the content
for `Url` and a navigate-to-string with the content for `Html`, and none when
the navigation call raised, in which case the exception is swallowed and the
handle is returned all the same. -/
theorem webview_new_navigation (n : Native) (title content : Option String)
    (contentType : ContentType) (width height : Int) (resizable : Bool) (w : World) (win : Window)
    (h : (webview_new n title content contentType width height resizable w).1
      = .returned (some win)) :
    ∃ c ctl, content = some c ∧ win.m_control = some ctl ∧
      (contentType = ContentType.Url ∨ contentType = ContentType.Html) ∧
      (webview_new n title content contentType width height resizable w).2.navigations =
        w.navigations ++
          (if n.navigationCompletes contentType = true then
            [(ctl.id, if contentType = ContentType.Url then Navigation.url c
                      else Navigation.string c)]
          else []) := by
  obtain ⟨t, c, rfl, rfl, hor, hw, hh, hct, hc⟩ :=
    webview_new_some n title content contentType width height resizable w win h
  have hk := Window.ctor_ok n t ⟨width, height⟩ resizable (EnsureInitialized n w).2 win hc
  obtain ⟨-, -, -, k4, -, -, -, k8⟩ := hk
  have hi := EnsureInitialized_ok n w hor
  rw [hi.2.2.2.2.2.2] at k4
  rcases hm : win.m_control with _ | ctl
  · simp [hm] at k8
  · refine ⟨c, ctl, rfl, rfl, ?_, ?_⟩
    · unfold IsValidContentType at hct
      simpa using hct
    · rw [webview_new_valid n t c contentType width height resizable w hor hw hh hct]
      revert hc k4
      generalize Window.ctor n t ⟨width, height⟩ resizable (EnsureInitialized n w).2 = C
      obtain ⟨c1, c2⟩ := C
      intro hc k4
      simp only [] at hc k4
      subst hc
      simp only []
      by_cases hu : contentType = ContentType.Url
      · simp only [hu, ↓reduceIte, Window.NavigateToUrl, hm, Native.navigationCompletes]
        cases n.uri <;> cases n.navigate <;> simp [k4]
      · have hh : contentType = ContentType.Html := by
          unfold IsValidContentType at hct
          simpa [hu] using hct
        have hne : ContentType.Html ≠ ContentType.Url := by decide
        subst hh
        simp only [hne, ↓reduceIte, Window.NavigateToString, hm, Native.navigationCompletes]
        cases n.navigateToString <;> simp [k4]

/-- C2, amended, at an instance: a URL that is accepted and navigated. -/
theorem webview_new_navigation_witness :
    (webview_new {} (some "T") (some "https://example.test") ContentType.Url 800 600 true {}).1
      = .returned (some ⟨some 1, 0, some 1,
          some { id := 0, IsVisible := true,
                 Bounds := ⟨.ofLONG 0, .ofLONG 0, .ofLONG 0, .ofLONG 0⟩ }⟩) ∧
    ∃ c ctl, some "https://example.test" = some c ∧
      (⟨some 1, 0, some 1,
          some { id := 0, IsVisible := true,
                 Bounds := ⟨.ofLONG 0, .ofLONG 0, .ofLONG 0, .ofLONG 0⟩ }⟩ : Window).m_control
        = some ctl ∧
      (webview_new {} (some "T") (some "https://example.test") ContentType.Url 800 600 true
          {}).2.navigations
        = [] ++ (if Native.navigationCompletes {} ContentType.Url = true then
            [(ctl.id, if ContentType.Url = ContentType.Url then Navigation.url c
                      else Navigation.string c)]
          else []) := by
  refine ⟨by decide, ?_⟩
  obtain ⟨c, ctl, h1, h2, -, h3⟩ := webview_new_navigation {} (some "T")
    (some "https://example.test") ContentType.Url 800 600 true {}
    ⟨some 1, 0, some 1,
      some { id := 0, IsVisible := true,
             Bounds := ⟨.ofLONG 0, .ofLONG 0, .ofLONG 0, .ofLONG 0⟩ }⟩ (by decide)
  exact ⟨c, ctl, h1, h2, h3⟩

/-- C1, at the failing input: with a null title and the one-time
initialization reporting failure, `webview_new` does not return the null
handle; the exception of `EnsureInitialized`, raised before the validation and
outside the `try` block, ends the process at the `noexcept` boundary. -/
theorem webview_new_null_title_init_failure :
    webview_new { initOnce := false } none (some "x") ContentType.Url 100 100 false {}
      = (.terminated, {}) := by
  decide

/-- C2, counterexample: the constructor completes, the navigation call raises,
the exception is swallowed and the handle of the new window is returned
although its control has received no navigation request; this is so for a URL
the `Uri` constructor rejects and for markup whose `NavigateToString`
raises. -/
theorem webview_new_returns_handle_without_navigation :
    (∃ win, (webview_new { uri := false } (some "T") (some "not a uri") ContentType.Url
        800 600 true {}).1 = .returned (some win)) ∧
    (webview_new { uri := false } (some "T") (some "not a uri") ContentType.Url
        800 600 true {}).2.navigations = [] ∧
    (∃ win, (webview_new { navigateToString := false } (some "T") (some "<p>x</p>")
        ContentType.Html 800 600 true {}).1 = .returned (some win)) ∧
    (webview_new { navigateToString := false } (some "T") (some "<p>x</p>") ContentType.Html
        800 600 true {}).2.navigations = [] := by
  refine ⟨⟨_, rfl⟩, by decide, ⟨_, rfl⟩, by decide⟩

/-- C3, counterexample: a first `webview_new` succeeds; a second one in the
same process, with valid arguments and native answers that all report
success, returns the null handle. -/
theorem second_webview_new_returns_null :
    (∃ win, (webview_new {} (some "A") (some "https://a.test") ContentType.Url 800 600 true {}).1
        = .returned (some win)) ∧
    (webview_new { hwnd := 2, process := some 2 } (some "B") (some "https://b.test")
        ContentType.Url 800 600 true
        (webview_new {} (some "A") (some "https://a.test") ContentType.Url 800 600 true {}).2).1
      = .returned none := by
  refine ⟨⟨_, rfl⟩, by decide⟩

/-- Once the class is registered and the runtime initialized, `webview_new`
returns the null handle and changes nothing. -/
theorem webview_new_of_registered (n : Native) (title content : Option String)
    (contentType : ContentType) (width height : Int) (resizable : Bool) (w : World)
    (hcl : "WebViewControlWindow" ∈ w.classes) (hin : w.initOnce = true) :
    webview_new n title content contentType width height resizable w = (.returned none, w) := by
  by_cases hv : ∃ t c, title = some t ∧ content = some c ∧ 0 ≤ width ∧ 0 ≤ height ∧
      IsValidContentType contentType = true
  · obtain ⟨t, c, rfl, rfl, hw, hh, hct⟩ := hv
    rw [webview_new_valid n t c contentType width height resizable w (Or.inl hin) hw hh hct,
      EnsureInitialized_of_initialized n w hin]
    simp only []
    rw [Window.ctor_of_registered n t ⟨width, height⟩ resizable w hcl]
  · unfold webview_new webview_new.body
    rw [EnsureInitialized_of_initialized n w hin]
    simp only []
    rcases title with _ | t
    · rfl
    · rcases content with _ | c
      · rfl
      · have : ¬ (width ≥ 0 ∧ height ≥ 0 ∧ IsValidContentType contentType = true) :=
          fun ⟨a, b, d⟩ => hv ⟨t, c, rfl, rfl, a, b, d⟩
        simp [this, noexcept]

/-- A `webview_new` that returns a handle leaves the class registered and the
runtime initialized. -/
theorem webview_new_some_registered (n : Native) (title content : Option String)
    (contentType : ContentType) (width height : Int) (resizable : Bool) (w : World) (win : Window)
    (h : (webview_new n title content contentType width height resizable w).1
      = .returned (some win)) :
    "WebViewControlWindow" ∈
        (webview_new n title content contentType width height resizable w).2.classes ∧
      (webview_new n title content contentType width height resizable w).2.initOnce = true := by
  obtain ⟨t, c, rfl, rfl, hor, hw, hh, hct, hc⟩ :=
    webview_new_some n title content contentType width height resizable w win h
  have hk := Window.ctor_ok n t ⟨width, height⟩ resizable (EnsureInitialized n w).2 win hc
  have hi := EnsureInitialized_ok n w hor
  rw [webview_new_valid n t c contentType width height resizable w hor hw hh hct]
  obtain ⟨k1, k2, -⟩ := hk
  rw [hi.2.1] at k2
  revert hc k1 k2
  generalize Window.ctor n t ⟨width, height⟩ resizable (EnsureInitialized n w).2 = C
  obtain ⟨c1, c2⟩ := C
  intro hc k1 k2
  simp only [] at hc k1 k2
  subst hc
  simp only []
  have f1 := (Window.NavigateToUrl_frame win n c c2).2
  have f2 := (Window.NavigateToString_frame win n c c2).2
  split
  · rw [f1]; exact ⟨k1, k2⟩
  · split
    · rw [f2]; exact ⟨k1, k2⟩
    · exact ⟨k1, k2⟩

theorem DispatchMessage_registered (this : Window) (w : World) (item : Retrieved) :
    (DispatchMessage this w item).2.classes = w.classes ∧
    (DispatchMessage this w item).2.initOnce = w.initOnce := by
  cases item with
  | window hwnd m =>
    exact ⟨(send_same this hwnd m w).2.classes_eq, (send_same this hwnd m w).2.initOnce_eq⟩
  | domContentLoaded =>
    simp only [DispatchMessage, Window.raiseDOMContentLoaded]
    split <;> simp
  | scriptNotify value =>
    simp only [DispatchMessage, Window.raiseScriptNotify]
    split <;> simp
  | other => simp [DispatchMessage]
  | quit wParam => simp [DispatchMessage]

theorem messageLoop_registered (queue : List Retrieved) :
    ∀ (this : Window) (w : World),
      (messageLoop this queue w).2.2.classes = w.classes ∧
      (messageLoop this queue w).2.2.initOnce = w.initOnce := by
  induction queue with
  | nil =>
    intro this w
    simp only [messageLoop]
    split <;> simp
  | cons item rest ih =>
    intro this w
    simp only [messageLoop]
    split
    · simp
    · split
      · simp
      · have h₁ := DispatchMessage_registered this w item
        have h₂ := ih (DispatchMessage this w item).1 (DispatchMessage this w item).2
        exact ⟨h₂.1.trans h₁.1, h₂.2.trans h₁.2⟩

theorem webview_run_registered (window : Window) (webview : Nat) (queue : List Retrieved)
    (w : World) :
    (webview_run window webview queue w).2.2.classes = w.classes ∧
    (webview_run window webview queue w).2.2.initOnce = w.initOnce := by
  unfold webview_run Window.Run
  simp only []
  split
  · exact ⟨rfl, rfl⟩
  · have h := fun t => messageLoop_registered queue t w
    split <;> exact h _

theorem webview_free_registered (window : Option Window) (w : World) :
    (webview_free window w).2.classes = w.classes ∧
    (webview_free window w).2.initOnce = w.initOnce := by
  unfold webview_free Window.dtor
  rcases window with _ | win
  · exact ⟨rfl, rfl⟩
  · simp only []
    split <;> exact ⟨rfl, rfl⟩

theorem webview_eval_script_registered (window : Window) (invoke : Bool) (script : String)
    (w : World) :
    (webview_eval_script window invoke script w).2.classes = w.classes ∧
    (webview_eval_script window invoke script w).2.initOnce = w.initOnce := by
  unfold webview_eval_script Window.EvaluateScript
  rcases window.m_control with _ | c <;> cases invoke <;> exact ⟨rfl, rfl⟩

/-- In every later state of a process whose class is registered and whose
runtime is initialized, both still hold. -/
theorem World.Later.registered {w w' : World} (h : w.Later w')
    (hcl : "WebViewControlWindow" ∈ w.classes) (hin : w.initOnce = true) :
    "WebViewControlWindow" ∈ w'.classes ∧ w'.initOnce = true := by
  induction h with
  | now => exact ⟨hcl, hin⟩
  | new _ n title content contentType width height resizable ih =>
    rw [webview_new_of_registered n title content contentType width height resizable _ ih.1 ih.2]
    exact ih
  | run _ window webview queue ih =>
    exact ⟨by rw [(webview_run_registered _ _ _ _).1]; exact ih.1,
      by rw [(webview_run_registered _ _ _ _).2]; exact ih.2⟩
  | free _ window ih =>
    exact ⟨by rw [(webview_free_registered _ _).1]; exact ih.1,
      by rw [(webview_free_registered _ _).2]; exact ih.2⟩
  | eval _ window invoke script ih =>
    exact ⟨by rw [(webview_eval_script_registered _ _ _ _).1]; exact ih.1,
      by rw [(webview_eval_script_registered _ _ _ _).2]; exact ih.2⟩

/-- C3, amended: after a `webview_new` that returned a handle, every later
`webview_new` in the same process, whatever calls of the four entry points
came in between, returns the null handle and changes nothing, whatever its
arguments and whatever the native calls answer: the constructor registers the
class "WebViewControlWindow" on every call and raises when the registration
of the registered class reports failure, and nothing unregisters it. -/
theorem webview_new_after_success_returns_null (n₁ n₂ : Native)
    (title₁ content₁ title₂ content₂ : Option String) (contentType₁ contentType₂ : ContentType)
    (width₁ height₁ width₂ height₂ : Int) (resizable₁ resizable₂ : Bool) (w w' : World)
    (win : Window)
    (h : (webview_new n₁ title₁ content₁ contentType₁ width₁ height₁ resizable₁ w).1
      = .returned (some win))
    (hlater : World.Later
      (webview_new n₁ title₁ content₁ contentType₁ width₁ height₁ resizable₁ w).2 w') :
    webview_new n₂ title₂ content₂ contentType₂ width₂ height₂ resizable₂ w'
      = (.returned none, w') := by
  have h₁ := webview_new_some_registered n₁ title₁ content₁ contentType₁ width₁ height₁
    resizable₁ w win h
  have h₂ := hlater.registered h₁.1 h₁.2
  exact webview_new_of_registered n₂ title₂ content₂ contentType₂ width₂ height₂ resizable₂ w'
    h₂.1 h₂.2

/-- C3, amended, at an instance: a create whose answers all report success,
then the window is run until it is destroyed and freed, then a second create
with answers that all report success. -/
theorem webview_new_after_success_returns_null_witness :
    (webview_new {} (some "A") (some "https://a.test") ContentType.Url 800 600 true {}).1
      = .returned (some ⟨some 1, 0, some 1,
          some { id := 0, IsVisible := true,
                 Bounds := ⟨.ofLONG 0, .ofLONG 0, .ofLONG 0, .ofLONG 0⟩ }⟩) ∧
    (webview_new { hwnd := 2, process := some 2 } (some "B") (some "<p>b</p>") ContentType.Html
        640 480 false
        (webview_free (some ⟨some 1, 0, some 1,
            some { id := 0, IsVisible := true,
                   Bounds := ⟨.ofLONG 0, .ofLONG 0, .ofLONG 0, .ofLONG 0⟩ }⟩)
          (webview_run ⟨some 1, 0, some 1,
              some { id := 0, IsVisible := true,
                     Bounds := ⟨.ofLONG 0, .ofLONG 0, .ofLONG 0, .ofLONG 0⟩ }⟩ 7
            [.window 1 { msg := WM_DESTROY }, .window 1 { msg := WM_NCDESTROY }]
            (webview_new {} (some "A") (some "https://a.test") ContentType.Url 800 600 true
              {}).2).2.2).2).1
      = .returned none :=
  ⟨by decide,
    congrArg Prod.fst
      (webview_new_after_success_returns_null {} { hwnd := 2, process := some 2 }
        (some "A") (some "https://a.test") (some "B") (some "<p>b</p>") ContentType.Url
        ContentType.Html 800 600 640 480 true false {} _
        ⟨some 1, 0, some 1,
          some { id := 0, IsVisible := true,
                 Bounds := ⟨.ofLONG 0, .ofLONG 0, .ofLONG 0, .ofLONG 0⟩ }⟩ (by decide)
        (.free (.run .now _ 7
          [.window 1 { msg := WM_DESTROY }, .window 1 { msg := WM_NCDESTROY }]) _))⟩

/-- C4, at the failing input: when the one-time initialization reports
failure, `webview_new` does not return the null handle; the exception of
`EnsureInitialized` is raised outside the `try` block and ends the process at
the `noexcept` boundary. -/
theorem webview_new_init_failure_terminates :
    webview_new { initOnce := false } (some "T") (some "https://example.test") ContentType.Url
      800 600 true {} = (.terminated, {}) := by
  decide

/-- C5, counterexample: the size query of the title conversion reports
failure (it returns 0); the constructor does not raise, the window is created
with an empty title and shown, and `webview_new` returns its handle. -/
theorem webview_new_title_size_query_failure :
    ∃ win, (webview_new { charCount := 0 } (some "T") (some "https://example.test")
        ContentType.Url 800 600 true {}).1 = .returned (some win) ∧
      (webview_new { charCount := 0 } (some "T") (some "https://example.test")
        ContentType.Url 800 600 true {}).2.shown = [1] ∧
      (webview_new { charCount := 0 } (some "T") (some "https://example.test")
        ContentType.Url 800 600 true {}).2.windows
        = [⟨1, "WebViewControlWindow", "", WS_OVERLAPPEDWINDOW, 800, 600⟩] :=
  ⟨_, rfl, by decide, by decide⟩

/-- C5, amended: for valid arguments, when the constructor is reached and one
of its steps raises (a null module handle, a class registration that returns
0, a title conversion call that returns 0 after a positive size, a null
window handle, control creation that raises or whose wait fails, or
`IsVisible(true)` that raises), `webview_new` returns the null handle and
`ShowWindow` has not been executed: the windows that have been shown are
those shown before the call.  A size query of the title conversion that
reports failure is not such a step: the title is then empty. -/
theorem webview_new_construction_failure (n : Native) (title content : String)
    (contentType : ContentType) (width height : Int) (resizable : Bool) (w : World)
    (hinit : w.initOnce = true ∨ n.initOnce = true)
    (hw : 0 ≤ width) (hh : 0 ≤ height)
    (hct : contentType = ContentType.Url ∨ contentType = ContentType.Html)
    (hfail : ConstructionFails n w) :
    (webview_new n (some title) (some content) contentType width height resizable w).1
      = .returned none ∧
    (webview_new n (some title) (some content) contentType width height resizable w).2.shown
      = w.shown ∧
    ∀ (n' : Native) (narrow : String), n'.charCount ≤ 0 →
      WideStringFromString n' narrow = .ok "" := by
  have hv : IsValidContentType contentType = true := by
    rcases hct with h | h <;> simp [IsValidContentType, h]
  have hi := EnsureInitialized_ok n w hinit
  have hfail' : ConstructionFails n (EnsureInitialized n w).2 := by
    cases hfail with
    | registerClass h => exact .registerClass (by rw [hi.2.2.1]; exact h)
    | moduleHandle h => exact .moduleHandle h
    | titleConversion hsize h => exact .titleConversion hsize h
    | createWindow h => exact .createWindow h
    | controlProcess h => exact .controlProcess h
    | controlCreate h => exact .controlCreate h
    | controlEvent h => exact .controlEvent h
    | controlCompleted h => exact .controlCompleted h
    | controlWait h => exact .controlWait h
    | controlVisible hwait h => exact .controlVisible hwait h
  have hr := Window.ctor_raise_of_fails n title ⟨width, height⟩ resizable (EnsureInitialized n w).2
    hfail'
  have hs := (Window.ctor_shown_of_not_ok n title ⟨width, height⟩ resizable
    (EnsureInitialized n w).2 (by rw [hr]; simp)).1
  rw [hi.2.2.2.2.1] at hs
  rw [webview_new_valid n title content contentType width height resizable w hinit hw hh hv]
  revert hr hs
  generalize Window.ctor n title ⟨width, height⟩ resizable (EnsureInitialized n w).2 = C
  obtain ⟨c1, c2⟩ := C
  intro hr hs
  simp only [] at hr hs
  subst hr
  refine ⟨rfl, hs, ?_⟩
  intro n' narrow hn
  have : ¬ n'.charCount > 0 := by omega
  simp [WideStringFromString, this]

/-- C5, amended, at an instance: window creation returns null after the class
has been registered. -/
theorem webview_new_construction_failure_witness :
    (webview_new { created := false } (some "T") (some "https://example.test") ContentType.Url
        800 600 true {}).1 = .returned none ∧
    (webview_new { created := false } (some "T") (some "https://example.test") ContentType.Url
        800 600 true {}).2.shown = [] :=
  let h := webview_new_construction_failure { created := false } "T" "https://example.test"
    ContentType.Url 800 600 true {} (Or.inr rfl) (by decide) (by decide) (Or.inl rfl)
    (.createWindow rfl)
  ⟨h.1, h.2.1⟩

/-! ## `webview_eval_script` -/

/-- C6: `webview_eval_script` always returns, with status 0 when
`Window::EvaluateScript` completes and status 1 when it raises, so the status
is 0 exactly when the call did not raise; on a handle whose `Window` holds a
control the call completes or raises as `InvokeScriptAsync` does. -/
theorem webview_eval_script_status (window : Window) (invoke : Bool) (script : String)
    (w : World) (hwnd : Option HWND) (owner : Nat) (process : Option Nat) (c : Control) :
    (webview_eval_script window invoke script w).1
      = .returned (if (window.EvaluateScript invoke script w).1 = .ok () then 0 else 1) ∧
    ((window.EvaluateScript invoke script w).1 = .ok () ∨
      (window.EvaluateScript invoke script w).1 = .raise) ∧
    ((webview_eval_script window invoke script w).1 = .returned 0 ↔
      (window.EvaluateScript invoke script w).1 ≠ .raise) ∧
    (Window.EvaluateScript ⟨hwnd, owner, process, some c⟩ invoke script w).1
      = (if invoke = true then .ok () else .raise) ∧
    (webview_eval_script ⟨hwnd, owner, process, some c⟩ invoke script w).1
      = .returned (if invoke = true then 0 else 1) := by
  refine ⟨?_, ?_, ?_, ?_, ?_⟩
  · unfold webview_eval_script Window.EvaluateScript
    rcases window.m_control with _ | c' <;> cases invoke <;> simp
  · unfold Window.EvaluateScript
    rcases window.m_control with _ | c' <;> cases invoke <;> simp
  · unfold webview_eval_script Window.EvaluateScript
    rcases window.m_control with _ | c' <;> cases invoke <;> simp
  · cases invoke <;> simp [Window.EvaluateScript]
  · cases invoke <;> simp [webview_eval_script, Window.EvaluateScript]

/-! ## `Window::Run` -/

theorem DispatchMessage_same (this : Window) (w : World) (item : Retrieved) :
    this.sameControl (DispatchMessage this w item).1 := by
  cases item with
  | window hwnd m => exact (send_same this hwnd m w).1
  | _ => exact Window.sameControl_refl _

theorem messageLoop_same (queue : List Retrieved) :
    ∀ (this : Window) (w : World), this.sameControl (messageLoop this queue w).2.1 := by
  induction queue with
  | nil =>
    intro this w
    simp only [messageLoop]
    split <;> exact Window.sameControl_refl _
  | cons item rest ih =>
    intro this w
    simp only [messageLoop]
    split
    · exact Window.sameControl_refl _
    · split
      · exact Window.sameControl_refl _
      · exact Window.sameControl_trans (DispatchMessage_same this w _) (ih _ _)

theorem filter_ne_append_fresh (l : List Nat) (t : Nat) (h : ∀ x ∈ l, x < t) :
    (l ++ [t]).filter (fun x => x ≠ t) = l := by
  rw [List.filter_append]
  have h1 : l.filter (fun x => decide (x ≠ t)) = l := by
    rw [List.filter_eq_self]
    intro x hx
    have := h x hx
    simp
    omega
  rw [h1]
  simp

/-- C7: when `Window::Run` returns, the handlers registered on the control for
`DOMContentLoaded` and `ScriptNotify` are exactly those registered before the
call (the two that `Run` added are removed), so raising either event
afterwards runs only handlers that were there before the call, and none when
there were none. -/
theorem Window.Run_restores_handlers (this : Window) (c : Control) (webview : Nat)
    (queue : List Retrieved) (w : World) (code : Int)
    (hc : this.m_control = some c) (hfresh : c.Fresh)
    (hret : (this.Run webview queue w).1 = .returned code) :
    ∃ c', (this.Run webview queue w).2.1.m_control = some c' ∧
      c'.domContentLoaded = c.domContentLoaded ∧ c'.scriptNotify = c.scriptNotify ∧ c'.Fresh ∧
      c.addDOMContentLoaded.1 ∉ c'.domContentLoaded ∧
      c.addDOMContentLoaded.2.addScriptNotify.1 ∉ c'.scriptNotify ∧
      ((this.Run webview queue w).2.1.raiseDOMContentLoaded (this.Run webview queue w).2.2).callbacks
        = (this.Run webview queue w).2.2.callbacks
          ++ c.domContentLoaded.map (fun _ => HostCall.generic webview DOMCONTENTLOADED) ∧
      ∀ value,
        ((this.Run webview queue w).2.1.raiseScriptNotify value
            (this.Run webview queue w).2.2).callbacks
          = (this.Run webview queue w).2.2.callbacks
            ++ c.scriptNotify.map (fun _ => HostCall.scriptNotify webview value) := by
  revert hret
  unfold Window.Run
  simp only [hc, Control.addDOMContentLoaded, Control.addScriptNotify]
  have hs := messageLoop_same queue
    { m_hwnd := this.m_hwnd, m_owner := webview, m_process := this.m_process,
      m_control := some
        { id := c.id, IsVisible := c.IsVisible, Bounds := c.Bounds,
          domContentLoaded := c.domContentLoaded ++ [c.nextToken],
          scriptNotify := c.scriptNotify ++ [c.nextToken + 1],
          nextToken := c.nextToken + 1 + 1 } } w
  generalize messageLoop _ queue w = L at hs ⊢
  obtain ⟨l1, l2, l3⟩ := L
  obtain ⟨-, ho, hm⟩ := hs
  simp only [] at ho hm ⊢
  rcases l1 with _ | wParam
  · simp
  · intro _
    rcases hl : l2.m_control with _ | c₂
    · simp [hl] at hm
    · simp only [hl, Option.map_some', Option.some.injEq, Prod.mk.injEq] at hm
      obtain ⟨-, -, hd, hn, hnext⟩ := hm
      have e1 : (c₂.domContentLoaded).filter (fun t => t ≠ c.nextToken) = c.domContentLoaded := by
        rw [hd]
        exact filter_ne_append_fresh _ _ hfresh.1
      have e2 : (c₂.scriptNotify).filter (fun t => t ≠ c.nextToken + 1) = c.scriptNotify := by
        rw [hn]
        exact filter_ne_append_fresh _ _ (fun x hx => Nat.lt_succ_of_lt (hfresh.2 x hx))
      refine ⟨_, rfl, ?_, ?_, ?_, ?_, ?_, ?_, ?_⟩
      · simpa [Control.removeDOMContentLoaded, Control.removeScriptNotify] using e1
      · simpa [Control.removeDOMContentLoaded, Control.removeScriptNotify] using e2
      · simp only [Control.Fresh, Control.removeDOMContentLoaded, Control.removeScriptNotify, e1,
          e2, hnext]
        exact ⟨fun t ht => by have := hfresh.1 t ht; omega,
          fun t ht => by have := hfresh.2 t ht; omega⟩
      · simp only [Control.removeDOMContentLoaded, Control.removeScriptNotify, e1]
        exact fun hmem => Nat.lt_irrefl _ (hfresh.1 _ hmem)
      · simp only [Control.removeDOMContentLoaded, Control.removeScriptNotify, e2]
        exact fun hmem => Nat.lt_irrefl _ (Nat.lt_of_succ_lt (hfresh.2 _ hmem))
      · simp only [Window.raiseDOMContentLoaded, Option.map_some', Control.removeDOMContentLoaded,
          Control.removeScriptNotify, e1, ho]
      · intro value
        simp only [Window.raiseScriptNotify, Option.map_some', Control.removeDOMContentLoaded,
          Control.removeScriptNotify, e2, ho]

/-- C7, at an instance: the window of a successful create runs a loop in
which both events are raised and the window is destroyed; afterwards no
handler is registered and raising the events calls nothing. -/
theorem Window.Run_restores_handlers_witness :
    (Window.Run ⟨some 1, 0, some 1, some { id := 0, Bounds := ⟨.ofLONG 0, .ofLONG 0, .ofLONG 0, .ofLONG 0⟩ }⟩
        7 [.domContentLoaded, .scriptNotify "v", .window 1 { msg := WM_DESTROY }]
        { userData := [1] }).1 = .returned 0 ∧
    ∃ c', (Window.Run ⟨some 1, 0, some 1, some { id := 0, Bounds := ⟨.ofLONG 0, .ofLONG 0, .ofLONG 0, .ofLONG 0⟩ }⟩
        7 [.domContentLoaded, .scriptNotify "v", .window 1 { msg := WM_DESTROY }]
        { userData := [1] }).2.1.m_control = some c' ∧
      c'.domContentLoaded = [] ∧ c'.scriptNotify = [] :=
  ⟨by decide, by
    obtain ⟨c', h1, h2, h3, -⟩ := Window.Run_restores_handlers
      ⟨some 1, 0, some 1, some { id := 0, Bounds := ⟨.ofLONG 0, .ofLONG 0, .ofLONG 0, .ofLONG 0⟩ }⟩
      { id := 0, Bounds := ⟨.ofLONG 0, .ofLONG 0, .ofLONG 0, .ofLONG 0⟩ } 7
      [.domContentLoaded, .scriptNotify "v", .window 1 { msg := WM_DESTROY }]
      { userData := [1] } 0 rfl ⟨by simp, by simp⟩ (by decide)
    exact ⟨c', h1, h2, h3⟩⟩

theorem DispatchMessage_keepsLooping (this : Window) (w : World) (item : Retrieved)
    (h : item.keepsLooping = true) :
    (DispatchMessage this w item).2.quit = w.quit ∧
    ∀ hwnd ∈ w.userData, hwnd ∈ (DispatchMessage this w item).2.userData := by
  cases item with
  | window hwnd m =>
    simp only [Retrieved.keepsLooping, Bool.and_eq_true, bne_iff_ne, ne_eq] at h
    simp only [DispatchMessage, send, h.2, ↓reduceIte, Window.s_WndProc, Window._HandleMessage, h.1]
    repeat' split
    all_goals simp_all
  | domContentLoaded =>
    simp only [DispatchMessage, Window.raiseDOMContentLoaded]
    split <;> simp
  | scriptNotify value =>
    simp only [DispatchMessage, Window.raiseScriptNotify]
    split <;> simp
  | other => simp [DispatchMessage]
  | quit wParam => simp [Retrieved.keepsLooping] at h

/-- While no `WM_QUIT` is pending and the messages keep the loop going, the
loop dispatches them one after the other. -/
theorem messageLoop_append (pre : List Retrieved) :
    ∀ (this : Window) (w : World) (queue : List Retrieved), w.quit = none →
      (∀ item ∈ pre, item.keepsLooping = true) →
      messageLoop this (pre ++ queue) w
          = messageLoop (dispatchAll this w pre).1 queue (dispatchAll this w pre).2 ∧
        (dispatchAll this w pre).2.quit = none ∧
        ∀ hwnd ∈ w.userData, hwnd ∈ (dispatchAll this w pre).2.userData := by
  induction pre with
  | nil => intro this w queue hq _; exact ⟨rfl, hq, fun _ h => h⟩
  | cons item rest ih =>
    intro this w queue hq hpre
    have hitem := hpre item (List.mem_cons_self _ _)
    have hd := DispatchMessage_keepsLooping this w item hitem
    have hrec := ih (DispatchMessage this w item).1 (DispatchMessage this w item).2 queue
      (hd.1.trans hq) (fun x hx => hpre x (List.mem_cons_of_mem _ hx))
    refine ⟨?_, hrec.2.1, fun hwnd h => hrec.2.2 hwnd (hd.2 hwnd h)⟩
    simp only [dispatchAll]
    rw [← hrec.1]
    simp only [List.cons_append, messageLoop, hq]
    cases item with
    | quit wParam => simp [Retrieved.keepsLooping] at hitem
    | _ => rfl

theorem intOfWPARAM_WPARAMOfInt (code : Int) (h₁ : -2 ^ 31 ≤ code) (h₂ : code < 2 ^ 31) :
    intOfWPARAM (WPARAMOfInt code) = code := by
  unfold intOfWPARAM WPARAMOfInt
  split <;> omega

theorem Window.Run_result (this : Window) (c : Control) (webview : Nat) (queue : List Retrieved)
    (w : World) (hc : this.m_control = some c) :
    (this.Run webview queue w).1 =
      match (messageLoop (this.running webview c) queue w).1 with
      | none => .blocked
      | some wParam => .returned (intOfWPARAM wParam) := by
  unfold Window.Run Window.running
  simp only [hc]
  split <;> rename_i h <;> simp only [h]

/-- C8: `webview_run` returns exactly when a `WM_QUIT` ends the loop, and
then returns the exit code that message carries, the `(int)` of its `wParam`:
so for a `WM_QUIT` that arrives, so with the code given to `PostQuitMessage`
for a quit posted that way, and so with 0 when the loop is ended by the window
procedure handling `WM_DESTROY`, which posts code 0. -/
theorem webview_run_exit_code (window : Window) (c : Control) (webview : Nat)
    (pre rest : List Retrieved) (w : World)
    (hc : window.m_control = some c) (hq : w.quit = none)
    (hpre : ∀ item ∈ pre, item.keepsLooping = true) :
    (∀ (queue : List Retrieved) (w₀ : World) (code : Int),
      (webview_run window webview queue w₀).1 = .returned code ↔
        ∃ wParam, (messageLoop (window.running webview c) queue w₀).1 = some wParam ∧
          code = intOfWPARAM wParam) ∧
    (∀ wParam, (webview_run window webview (pre ++ .quit wParam :: rest) w).1
        = .returned (intOfWPARAM wParam)) ∧
    (∀ (code : Int) (queue : List Retrieved) (w₀ : World), -2 ^ 31 ≤ code → code < 2 ^ 31 →
      (webview_run window webview queue (PostQuitMessage code w₀)).1 = .returned code) ∧
    (∀ hwnd m, m.msg = WM_DESTROY → hwnd ∈ w.userData →
      (webview_run window webview (pre ++ .window hwnd m :: rest) w).1 = .returned 0) := by
  refine ⟨?_, ?_, ?_, ?_⟩
  · intro queue w₀ code
    unfold webview_run
    rw [Window.Run_result window c webview _ w₀ hc]
    rcases (messageLoop (window.running webview c) queue w₀).1 with _ | wParam
    · simp
    · simp only [Outcome.returned.injEq, Option.some.injEq, exists_eq_left']
      exact eq_comm
  · intro wParam
    have h := messageLoop_append pre (window.running webview c) w (.quit wParam :: rest) hq hpre
    unfold webview_run
    rw [Window.Run_result window c webview _ w hc, h.1]
    simp [messageLoop, h.2.1]
  · intro code queue w₀ h₁ h₂
    unfold webview_run
    rw [Window.Run_result window c webview _ _ hc]
    have : (messageLoop (window.running webview c) queue (PostQuitMessage code w₀)).1
        = some (WPARAMOfInt code) := by
      cases queue <;> simp [messageLoop, PostQuitMessage]
    rw [this]
    simp only []
    rw [intOfWPARAM_WPARAMOfInt code h₁ h₂]
  · intro hwnd m hm hu
    have h := messageLoop_append pre (window.running webview c) w (.window hwnd m :: rest) hq hpre
    unfold webview_run
    rw [Window.Run_result window c webview _ w hc, h.1]
    have hu' := h.2.2 hwnd hu
    have hne1 : WM_DESTROY ≠ WM_NCCREATE := by decide
    have hne2 : WM_DESTROY ≠ WM_NCDESTROY := by decide
    have : (messageLoop (dispatchAll (window.running webview c) w pre).1 (.window hwnd m :: rest)
        (dispatchAll (window.running webview c) w pre).2).1 = some 0 := by
      simp only [messageLoop, h.2.1, DispatchMessage, send, hm, hne2, ↓reduceIte,
        Window.s_WndProc, hne1, hu', Window._HandleMessage, PostQuitMessage]
      cases rest <;> simp [messageLoop, WPARAMOfInt]
    rw [this]
    rfl

/-- C8, at an instance: a resize, then the destroy message ends the loop. -/
theorem webview_run_exit_code_witness :
    (webview_run ⟨some 1, 0, some 1, some { id := 0, Bounds := ⟨.ofLONG 0, .ofLONG 0, .ofLONG 0, .ofLONG 0⟩ }⟩
      7 ([.window 1 { msg := WM_SIZE }] ++ .window 1 { msg := WM_DESTROY } :: [.other])
      { userData := [1] }).1 = .returned 0 :=
  (webview_run_exit_code
    ⟨some 1, 0, some 1, some { id := 0, Bounds := ⟨.ofLONG 0, .ofLONG 0, .ofLONG 0, .ofLONG 0⟩ }⟩
    { id := 0, Bounds := ⟨.ofLONG 0, .ofLONG 0, .ofLONG 0, .ofLONG 0⟩ } 7
    [.window 1 { msg := WM_SIZE }] [.other] { userData := [1] } rfl rfl (by decide)).2.2.2
    1 { msg := WM_DESTROY } rfl (by decide)

/-! ## `webview_free` -/

theorem Window.Run_process (this : Window) (webview : Nat) (queue : List Retrieved) (w : World) :
    (this.Run webview queue w).2.1.m_process = this.m_process := by
  unfold Window.Run
  simp only []
  split
  · rfl
  · rename_i c hc
    have hs := fun t => (messageLoop_same queue t w).process_eq
    split
    · simp only [hs]
    · simp only [hs]

/-- C9, counterexample: a window is created and freed without `webview_run`;
`webview_free` returns, the control process has been terminated, and the
native window still exists. -/
theorem window_exists_after_webview_free :
    ∃ win,
      (webview_new {} (some "T") (some "https://example.test") ContentType.Url 800 600 true {}).1
        = .returned (some win) ∧
      (webview_free (some win)
        (webview_new {} (some "T") (some "https://example.test") ContentType.Url 800 600 true
          {}).2).1 = .returned () ∧
      (webview_free (some win)
        (webview_new {} (some "T") (some "https://example.test") ContentType.Url 800 600 true
          {}).2).2.terminated = [1] ∧
      (webview_free (some win)
        (webview_new {} (some "T") (some "https://example.test") ContentType.Url 800 600 true
          {}).2).2.windows
        = [⟨1, "WebViewControlWindow", "T", WS_OVERLAPPEDWINDOW, 800, 600⟩] :=
  ⟨_, rfl, by decide, by decide, by decide⟩

/-- C9, amended: for every handle returned by a successful `webview_new`,
before or after `webview_run` on it, `webview_free` returns after calling
`Terminate` on the control's process and changes nothing else; in particular
the native windows that exist after it are those that existed before it. -/
theorem webview_free_terminates_process_only (n : Native) (title content : Option String)
    (contentType : ContentType) (width height : Int) (resizable : Bool) (w : World) (win : Window)
    (h : (webview_new n title content contentType width height resizable w).1
      = .returned (some win)) :
    ∃ process, win.m_process = some process ∧
      (∀ w₂, webview_free (some win) w₂
        = (.returned (), { w₂ with terminated := w₂.terminated ++ [process] })) ∧
      (∀ webview queue w₁ w₂, webview_free (some (webview_run win webview queue w₁).2.1) w₂
        = (.returned (), { w₂ with terminated := w₂.terminated ++ [process] })) ∧
      (∀ webview queue w₁ w₂,
        (webview_free (some (webview_run win webview queue w₁).2.1) w₂).2.windows = w₂.windows) := by
  obtain ⟨t, c, rfl, rfl, hor, hw, hh, hct, hc⟩ :=
    webview_new_some n title content contentType width height resizable w win h
  obtain ⟨-, -, -, -, -, hp, hne, -⟩ :=
    Window.ctor_ok n t ⟨width, height⟩ resizable (EnsureInitialized n w).2 win hc
  obtain ⟨process, hproc⟩ := Option.ne_none_iff_exists'.mp hne
  rw [hproc] at hp
  refine ⟨process, hp, ?_, ?_, ?_⟩
  · intro w₂
    simp [webview_free, Window.dtor, hp, noexcept]
  · intro webview queue w₁ w₂
    simp [webview_free, Window.dtor, webview_run, Window.Run_process, hp, noexcept]
  · intro webview queue w₁ w₂
    simp [webview_free, Window.dtor, webview_run, Window.Run_process, hp, noexcept]

/-- C9, amended, at an instance. -/
theorem webview_free_terminates_process_only_witness :
    ∃ process, (⟨some 1, 0, some 1,
        some { id := 0, IsVisible := true,
               Bounds := ⟨.ofLONG 0, .ofLONG 0, .ofLONG 0, .ofLONG 0⟩ }⟩ : Window).m_process
        = some process ∧
      ∀ w₂ : World, webview_free (some ⟨some 1, 0, some 1,
          some { id := 0, IsVisible := true,
                 Bounds := ⟨.ofLONG 0, .ofLONG 0, .ofLONG 0, .ofLONG 0⟩ }⟩) w₂
        = (.returned (), { w₂ with terminated := w₂.terminated ++ [process] }) := by
  obtain ⟨process, h1, h2, -⟩ := webview_free_terminates_process_only {} (some "T")
    (some "https://example.test") ContentType.Url 800 600 true {}
    ⟨some 1, 0, some 1,
      some { id := 0, IsVisible := true,
             Bounds := ⟨.ofLONG 0, .ofLONG 0, .ofLONG 0, .ofLONG 0⟩ }⟩ (by decide)
  exact ⟨process, h1, h2⟩

/-! ## The resize message -/

theorem droppedBits_cases (a : Nat) (h : a ≤ 2 ^ 31) :
    (a < 2 ^ 24 ∧ droppedBits a = 0) ∨ (2 ^ 24 ≤ a ∧ a < 2 ^ 25 ∧ droppedBits a = 1) ∨
    (2 ^ 25 ≤ a ∧ a < 2 ^ 26 ∧ droppedBits a = 2) ∨
    (2 ^ 26 ≤ a ∧ a < 2 ^ 27 ∧ droppedBits a = 3) ∨
    (2 ^ 27 ≤ a ∧ a < 2 ^ 28 ∧ droppedBits a = 4) ∨
    (2 ^ 28 ≤ a ∧ a < 2 ^ 29 ∧ droppedBits a = 5) ∨
    (2 ^ 29 ≤ a ∧ a < 2 ^ 30 ∧ droppedBits a = 6) ∨
    (2 ^ 30 ≤ a ∧ a < 2 ^ 31 ∧ droppedBits a = 7) ∨
    (a = 2 ^ 31 ∧ droppedBits a = 8) := by
  unfold droppedBits
  repeat' split
  all_goals omega

/-- Rounding moves a magnitude by at most 64 and leaves it alone up to 2^24. -/
theorem roundMagnitude_near (a : Nat) (h : a ≤ 2 ^ 31) :
    roundMagnitude a ≤ a + 64 ∧ a ≤ roundMagnitude a + 64 ∧
    (a ≤ 2 ^ 24 → roundMagnitude a = a) := by
  unfold roundMagnitude
  rcases droppedBits_cases a h with ⟨h1, hd⟩ | ⟨h1, h2, hd⟩ | ⟨h1, h2, hd⟩ | ⟨h1, h2, hd⟩ |
    ⟨h1, h2, hd⟩ | ⟨h1, h2, hd⟩ | ⟨h1, h2, hd⟩ | ⟨h1, h2, hd⟩ | ⟨h1, hd⟩ <;>
  · rw [hd]
    norm_num only
    split <;> omega

/-- The `float` of a `LONG` is within 64 of it, and is the value itself up to
2^24 in magnitude. -/
theorem CFloat.ofLONG_near (n : Int) (h1 : -2 ^ 31 ≤ n) (h2 : n < 2 ^ 31) :
    (CFloat.ofLONG n).value ≤ n + 64 ∧ n ≤ (CFloat.ofLONG n).value + 64 ∧
    (-2 ^ 24 ≤ n → n ≤ 2 ^ 24 → CFloat.ofLONG n = ⟨n⟩) := by
  have h := roundMagnitude_near n.natAbs (by omega)
  unfold CFloat.ofLONG
  refine ⟨?_, ?_, ?_⟩
  · simp only []
    split <;> omega
  · simp only []
    split <;> omega
  · intro h3 h4
    congr 1
    have := h.2.2 (by omega)
    split <;> omega

theorem subLONG_isLONG (a b : Int) : -2 ^ 31 ≤ subLONG a b ∧ subLONG a b < 2 ^ 31 := by
  unfold subLONG
  omega

/-- C10, counterexample: a client rectangle with left = top = 0 and a width of
16777217; the handler returns 0 and the control's bounds get the width
16777216, the nearest `float`, not the client width. -/
theorem resize_rounds_wide_client_area :
    Window._HandleMessage
        ⟨some 1, 7, some 1, some { id := 0, Bounds := ⟨.ofLONG 0, .ofLONG 0, .ofLONG 0, .ofLONG 0⟩ }⟩
        { msg := WM_SIZE, clientRect := ⟨0, 0, 16777217, 600⟩ } { userData := [1] }
      = (0, ⟨some 1, 7, some 1,
          some { id := 0, Bounds := ⟨⟨0⟩, ⟨0⟩, ⟨16777216⟩, ⟨600⟩⟩ }⟩,
        { userData := [1] }) ∧
    (⟨16777216⟩ : CFloat) ≠ ⟨16777217⟩ := by
  decide

/-- C10, amended: a `WM_SIZE` that reaches the window procedure while the
`Window` holds a control sets the control's bounds to the rectangle computed
from the client rectangle, X = left, Y = top, Width = right - left,
Height = bottom - top in `LONG` arithmetic, each converted to `float`, and the
handler returns 0; the differences are the exact ones whenever they fit a
`LONG`, every converted value is within 64 of the integer and equal to it up
to 2^24 in magnitude, and for left = top = 0 with width and height of at
most 2^24 the bounds are exactly (0, 0, right, bottom). -/
theorem resize_sets_control_bounds (this : Window) (c : Control) (hwnd : HWND) (m : Sent)
    (w : World) (hc : this.m_control = some c) (hm : m.msg = WM_SIZE)
    (hu : hwnd ∈ w.userData) (hr : m.clientRect.IsLONG) :
    this.s_WndProc hwnd m w = this._HandleMessage m w ∧
    this._HandleMessage m w
      = (0, { this with m_control := some { c with Bounds :=
            ⟨.ofLONG m.clientRect.left, .ofLONG m.clientRect.top,
              .ofLONG (subLONG m.clientRect.right m.clientRect.left),
              .ofLONG (subLONG m.clientRect.bottom m.clientRect.top)⟩ } }, w) ∧
    (-2 ^ 31 ≤ m.clientRect.right - m.clientRect.left →
      m.clientRect.right - m.clientRect.left < 2 ^ 31 →
      subLONG m.clientRect.right m.clientRect.left = m.clientRect.right - m.clientRect.left) ∧
    (-2 ^ 31 ≤ m.clientRect.bottom - m.clientRect.top →
      m.clientRect.bottom - m.clientRect.top < 2 ^ 31 →
      subLONG m.clientRect.bottom m.clientRect.top = m.clientRect.bottom - m.clientRect.top) ∧
    (∀ x ∈ [m.clientRect.left, m.clientRect.top,
        subLONG m.clientRect.right m.clientRect.left,
        subLONG m.clientRect.bottom m.clientRect.top],
      (CFloat.ofLONG x).value ≤ x + 64 ∧ x ≤ (CFloat.ofLONG x).value + 64 ∧
      (-2 ^ 24 ≤ x → x ≤ 2 ^ 24 → CFloat.ofLONG x = ⟨x⟩)) ∧
    (m.clientRect.left = 0 → m.clientRect.top = 0 →
      0 ≤ m.clientRect.right → m.clientRect.right ≤ 2 ^ 24 →
      0 ≤ m.clientRect.bottom → m.clientRect.bottom ≤ 2 ^ 24 →
      this._HandleMessage m w
        = (0, { this with m_control := some { c with Bounds :=
              ⟨⟨0⟩, ⟨0⟩, ⟨m.clientRect.right⟩, ⟨m.clientRect.bottom⟩⟩ } }, w)) := by
  have hne1 : WM_SIZE ≠ WM_NCCREATE := by decide
  have hne2 : WM_SIZE ≠ WM_DESTROY := by decide
  have hmain : this._HandleMessage m w
      = (0, { this with m_control := some { c with Bounds :=
            ⟨.ofLONG m.clientRect.left, .ofLONG m.clientRect.top,
              .ofLONG (subLONG m.clientRect.right m.clientRect.left),
              .ofLONG (subLONG m.clientRect.bottom m.clientRect.top)⟩ } }, w) := by
    simp [Window._HandleMessage, hm, hne2, Window._UpdateBounds, hc, Window._GetBounds]
  obtain ⟨⟨l1, l2⟩, ⟨t1, t2⟩, ⟨r1, r2⟩, ⟨b1, b2⟩⟩ := hr
  refine ⟨?_, hmain, ?_, ?_, ?_, ?_⟩
  · simp [Window.s_WndProc, hm, hne1, hu]
  · intro h1 h2
    unfold subLONG
    omega
  · intro h1 h2
    unfold subLONG
    omega
  · intro x hx
    simp only [List.mem_cons, List.mem_singleton, List.not_mem_nil, or_false] at hx
    rcases hx with rfl | rfl | rfl | rfl
    · exact CFloat.ofLONG_near _ l1 l2
    · exact CFloat.ofLONG_near _ t1 t2
    · exact CFloat.ofLONG_near _ (subLONG_isLONG _ _).1 (subLONG_isLONG _ _).2
    · exact CFloat.ofLONG_near _ (subLONG_isLONG _ _).1 (subLONG_isLONG _ _).2
  · intro hl ht hr0 hr1 hb0 hb1
    rw [hmain, hl, ht]
    have e1 : subLONG m.clientRect.right 0 = m.clientRect.right := by
      unfold subLONG
      omega
    have e2 : subLONG m.clientRect.bottom 0 = m.clientRect.bottom := by
      unfold subLONG
      omega
    rw [e1, e2, (CFloat.ofLONG_near 0 (by norm_num) (by norm_num)).2.2 (by norm_num) (by norm_num),
      (CFloat.ofLONG_near _ r1 r2).2.2 (by omega) hr1,
      (CFloat.ofLONG_near _ b1 b2).2.2 (by omega) hb1]

/-- C10, amended, at an instance: a client area of 800 by 600. -/
theorem resize_sets_control_bounds_witness :
    Window._HandleMessage
        ⟨some 1, 7, some 1, some { id := 0, Bounds := ⟨.ofLONG 0, .ofLONG 0, .ofLONG 0, .ofLONG 0⟩ }⟩
        { msg := WM_SIZE, clientRect := ⟨0, 0, 800, 600⟩ } { userData := [1] }
      = (0, ⟨some 1, 7, some 1,
          some { id := 0, Bounds := ⟨⟨0⟩, ⟨0⟩, ⟨800⟩, ⟨600⟩⟩ }⟩,
        { userData := [1] }) :=
  (resize_sets_control_bounds
    ⟨some 1, 7, some 1, some { id := 0, Bounds := ⟨.ofLONG 0, .ofLONG 0, .ofLONG 0, .ofLONG 0⟩ }⟩
    { id := 0, Bounds := ⟨.ofLONG 0, .ofLONG 0, .ofLONG 0, .ofLONG 0⟩ } 1
    { msg := WM_SIZE, clientRect := ⟨0, 0, 800, 600⟩ } { userData := [1] } rfl rfl
    (by decide) (by simp [RECT.IsLONG])).2.2.2.2.2 rfl rfl (by decide) (by decide) (by decide)
    (by decide)

end WebView
